import Mathlib

/-!
Verification development for the digital I/O synchronization engine of
`usbd_digital_io.c` (STM32 USB HID functional-tester firmware).

The C code is shallowly embedded: the global structures
(`HID_DIGITAL_IO_TypeDef`, `ORDERED_ARRAY`) become Lean structures, the
mutating functions become pure state-passing functions, and `uint8_t`
arithmetic is `Nat` arithmetic with explicit `% 256` where the C type can
wrap.  The numeric constants below come from the companion header
`usbd_digital_io.h` / `stm32f4xx_hal_gpio.h` (not present in this tree);
their values are forced by the bit masks used in `USBD_HID_Digital_IO_Set_Changes`
(bit 0 = active, bit 1 = mode, bits 2-3 = pull), by the report-format
comments in `USBD_HID_Digital_IO_CreateReport` ("XX543210", three
pin bytes for six 4-pin ports) and by the standard STM32 HAL values.
-/

set_option maxRecDepth 10000

/-- PORT_COUNT: six ports, per the report-format comments ("XX543210"). -/
abbrev DIGITAL_MAX_PORT_NUM : Nat := 6

/-- PINS_PER_PORT: four pins per port ("4 pin / port" in `CreateReport`). -/
abbrev DIGITAL_MAX_PIN_NUM : Nat := 4

/-- STM32 HAL: input mode constant (0x00000000). -/
abbrev GPIO_MODE_INPUT : Nat := 0

/-- STM32 HAL: push-pull output mode constant (0x00000001). -/
abbrev GPIO_MODE_OUTPUT_PP : Nat := 1

/-- STM32 HAL: no pull-up/pull-down (0x00000000). -/
abbrev GPIO_NOPULL : Nat := 0

/-- STM32 HAL: pull-up (0x00000001). -/
abbrev GPIO_PULLUP : Nat := 1

/-- STM32 HAL: pull-down (0x00000002). -/
abbrev GPIO_PULLDOWN : Nat := 2

/-- Digital pin logic-low value. -/
abbrev DIGITAL_PIN_LOW : Nat := 0

/-- Change-flag enum value "unchanged" (compared against `output_buff[i] & 0x01`). -/
abbrev UNCHANGED : Nat := 0

/-- Change-flag enum value "changed": bit 0 of a command byte set. -/
abbrev CHANGED : Nat := 1

/-- Mode enum value "input": bit 1 of a command byte clear. -/
abbrev INPUT : Nat := 0

/-- Mode enum value "output": the value of `byte & 0x02` when bit 1 is set. -/
abbrev OUTPUT : Nat := 2

/-- Pull enum value "no pull": `byte & 0x0C = 0b0000`. -/
abbrev NOPULL : Nat := 0

/-- Pull enum value "pull-down": `byte & 0x0C = 0b0100`. -/
abbrev PULLDOWN : Nat := 4

/-- Pull enum value "pull-up": `byte & 0x0C = 0b1000`. -/
abbrev PULLUP : Nat := 8

/-- GPIO mode/pull/pin-mask triple stored per port (`gpio_settings` field). -/
structure GPIO_Settings where
  Mode : Nat
  Pull : Nat
  Pin : Nat
deriving DecidableEq

/-- One port of the digital-IO state: settings, pin count, change flags and
the four pin values.  The C fields `_changeIO` / `_changePIN` are named
`change_io` / `change_pin` here. -/
structure DIGITAL_PORT_TypeDef where
  gpio_settings : GPIO_Settings
  pin_enabled_size : Nat
  change_io : Nat
  change_pin : Nat
  pins : Fin DIGITAL_MAX_PIN_NUM → Nat
deriving DecidableEq

/-- The whole digital-IO instance (`HID_DIGITAL_IO_TypeDef`): the live state
`digital_io` and the candidate state `digital_io_new_state` both have this
type. -/
structure HID_DIGITAL_IO_TypeDef where
  port_enabled_size : Nat
  ports : Fin DIGITAL_MAX_PORT_NUM → DIGITAL_PORT_TypeDef
deriving DecidableEq

/-- The switch sequencer `ORDERED_ARRAY digital_io_switch_buffer`: a
fixed array of port numbers addressed by a head cursor (grows from 0) and a
tail cursor (shrinks from `DIGITAL_MAX_PORT_NUM - 1`, with `uint8_t`
wraparound).  The array is modeled as a total function on `Nat`; the code
only ever reads and writes indices 0..5 in reachable states. -/
structure ORDERED_ARRAY where
  array : Nat → Nat
  head_idx : Nat
  tail_idx : Nat

/-- Pin-mask accumulation of the default branch: `Pin = 0` then
`Pin |= gpio_digital_pin[port][pin]` for each pin.  The physical pin
identifier table `gpio_digital_pin` (from `gpio.h`, not in this tree) is
passed in as the parameter `g`. -/
def defaultPinMask (g : Fin DIGITAL_MAX_PORT_NUM → Fin DIGITAL_MAX_PIN_NUM → Nat)
    (p : Fin DIGITAL_MAX_PORT_NUM) : Nat :=
  (List.finRange DIGITAL_MAX_PIN_NUM).foldl (fun m k => m ||| g p k) 0

/-- Default configuration of one port, as assigned both by
`USBD_HID_Digital_IO_Init` and by the inactive branch of
`USBD_HID_Digital_IO_Set_Changes`: input mode, pull-down, recomputed pin
mask, all pins low, both change flags cleared. -/
def defaultPort (g : Fin DIGITAL_MAX_PORT_NUM → Fin DIGITAL_MAX_PIN_NUM → Nat)
    (p : Fin DIGITAL_MAX_PORT_NUM) : DIGITAL_PORT_TypeDef :=
  { gpio_settings := { Mode := GPIO_MODE_INPUT, Pull := GPIO_PULLDOWN, Pin := defaultPinMask g p }
    pin_enabled_size := DIGITAL_MAX_PIN_NUM
    change_io := UNCHANGED
    change_pin := UNCHANGED
    pins := fun _ => DIGITAL_PIN_LOW }

/-- Embedding of `USBD_HID_Digital_IO_Init`: all ports get the default
configuration. -/
def USBD_HID_Digital_IO_Init
    (g : Fin DIGITAL_MAX_PORT_NUM → Fin DIGITAL_MAX_PIN_NUM → Nat) :
    HID_DIGITAL_IO_TypeDef :=
  { port_enabled_size := DIGITAL_MAX_PORT_NUM
    ports := fun p => defaultPort g p }

/-- The inner pin loop of the active-output branch of `Set_Changes`
(lines 261-281): for each pin index, the decoded bit is stored in the
candidate pins and `_changePIN` is reassigned from scratch based on that
single pin's comparison and the `_changeIO` flag. -/
def pinLoop (live_pins : Fin DIGITAL_MAX_PIN_NUM → Nat) (cio temp_pins : Nat) :
    (Fin DIGITAL_MAX_PIN_NUM → Nat) → Nat → List (Fin DIGITAL_MAX_PIN_NUM) →
    (Fin DIGITAL_MAX_PIN_NUM → Nat) × Nat
  | pins, cpin, [] => (pins, cpin)
  | pins, _, k :: ks =>
      let v := (temp_pins >>> k.val) &&& 0x01
      let cpin' := if (v ≠ live_pins k ∧ cio = UNCHANGED) ∨ cio = CHANGED
        then CHANGED else UNCHANGED
      pinLoop live_pins cio temp_pins (Function.update pins k v) cpin' ks

/-- One iteration of the port loop of `USBD_HID_Digital_IO_Set_Changes`
(lines 202-308): decode the command byte `b` for port `p` against the live
port, updating the candidate port and the switch sequencer. -/
def stepPort (g : Fin DIGITAL_MAX_PORT_NUM → Fin DIGITAL_MAX_PIN_NUM → Nat)
    (livePort candPort : DIGITAL_PORT_TypeDef) (p : Fin DIGITAL_MAX_PORT_NUM)
    (b : Nat) (seq : ORDERED_ARRAY) : DIGITAL_PORT_TypeDef × ORDERED_ARRAY :=
  let temp_change := b &&& 0x01
  if temp_change = CHANGED then
    let temp_mode := b &&& 0x02
    let newMode := if temp_mode = OUTPUT then GPIO_MODE_OUTPUT_PP else GPIO_MODE_INPUT
    let temp_pull := b &&& 0x0C
    let newPull :=
      if temp_pull = NOPULL then GPIO_NOPULL
      else if temp_pull = PULLDOWN then GPIO_PULLDOWN
      else if temp_pull = PULLUP then GPIO_PULLUP
      else GPIO_NOPULL
    let cio :=
      if newMode ≠ livePort.gpio_settings.Mode ∨ newPull ≠ livePort.gpio_settings.Pull
      then CHANGED else UNCHANGED
    let seq' :=
      if cio = CHANGED then
        if newMode = GPIO_MODE_OUTPUT_PP then
          { seq with array := Function.update seq.array seq.tail_idx p.val
                     tail_idx := (seq.tail_idx + 255) % 256 }
        else
          { seq with array := Function.update seq.array seq.head_idx p.val
                     head_idx := (seq.head_idx + 1) % 256 }
      else seq
    let pinres :=
      if temp_mode = OUTPUT then
        let temp_pins := (b &&& 0xF0) >>> 4
        pinLoop livePort.pins cio temp_pins candPort.pins candPort.change_pin
          (List.finRange DIGITAL_MAX_PIN_NUM)
      else (candPort.pins, UNCHANGED)
    ({ candPort with
        gpio_settings := { candPort.gpio_settings with Mode := newMode, Pull := newPull }
        change_io := cio
        change_pin := pinres.2
        pins := pinres.1 }, seq')
  else (defaultPort g p, seq)

/-- The port loop of `USBD_HID_Digital_IO_Set_Changes`, threading the
candidate state and switch sequencer through `stepPort` for each port. -/
def setLoop (g : Fin DIGITAL_MAX_PORT_NUM → Fin DIGITAL_MAX_PIN_NUM → Nat)
    (live : HID_DIGITAL_IO_TypeDef) (buff : Fin DIGITAL_MAX_PORT_NUM → Nat) :
    List (Fin DIGITAL_MAX_PORT_NUM) →
    HID_DIGITAL_IO_TypeDef × ORDERED_ARRAY → HID_DIGITAL_IO_TypeDef × ORDERED_ARRAY
  | [], s => s
  | p :: ps, s =>
      let r := stepPort g (live.ports p) (s.1.ports p) p (buff p) s.2
      setLoop g live buff ps ({ s.1 with ports := Function.update s.1.ports p r.1 }, r.2)

/-- Embedding of `USBD_HID_Digital_IO_Set_Changes`: `live` is the global
`digital_io`, `buff` the command buffer (one byte per port), `cand` the
global `digital_io_new_state` as it stood before the call, `seq` the global
`digital_io_switch_buffer`.  Returns the updated candidate state and
sequencer. -/
def USBD_HID_Digital_IO_Set_Changes
    (g : Fin DIGITAL_MAX_PORT_NUM → Fin DIGITAL_MAX_PIN_NUM → Nat)
    (live : HID_DIGITAL_IO_TypeDef) (buff : Fin DIGITAL_MAX_PORT_NUM → Nat)
    (cand : HID_DIGITAL_IO_TypeDef) (seq : ORDERED_ARRAY) :
    HID_DIGITAL_IO_TypeDef × ORDERED_ARRAY :=
  setLoop g live buff (List.finRange DIGITAL_MAX_PORT_NUM) (cand, seq)

/-- Command-buffer access instrumented for buffer length: the C code indexes
`output_buff[port_idx]` on a raw pointer with no length check; reading past
the end of the delivered buffer is undefined behavior, modeled here as
`Option` failure of the whole call. -/
def setLoopChecked (g : Fin DIGITAL_MAX_PORT_NUM → Fin DIGITAL_MAX_PIN_NUM → Nat)
    (live : HID_DIGITAL_IO_TypeDef) (buff : List Nat) :
    List (Fin DIGITAL_MAX_PORT_NUM) →
    HID_DIGITAL_IO_TypeDef × ORDERED_ARRAY →
    Option (HID_DIGITAL_IO_TypeDef × ORDERED_ARRAY)
  | [], s => some s
  | p :: ps, s =>
      match buff[p.val]? with
      | none => none
      | some b =>
          let r := stepPort g (live.ports p) (s.1.ports p) p b s.2
          setLoopChecked g live buff ps
            ({ s.1 with ports := Function.update s.1.ports p r.1 }, r.2)

/-- Length-instrumented embedding of `USBD_HID_Digital_IO_Set_Changes`,
run on an explicit byte list: succeeds exactly when all
`DIGITAL_MAX_PORT_NUM` indexed accesses stay inside the buffer.  The C
function itself performs no length validation. -/
def USBD_HID_Digital_IO_Set_Changes_checked
    (g : Fin DIGITAL_MAX_PORT_NUM → Fin DIGITAL_MAX_PIN_NUM → Nat)
    (live : HID_DIGITAL_IO_TypeDef) (buff : List Nat)
    (cand : HID_DIGITAL_IO_TypeDef) (seq : ORDERED_ARRAY) :
    Option (HID_DIGITAL_IO_TypeDef × ORDERED_ARRAY) :=
  setLoopChecked g live buff (List.finRange DIGITAL_MAX_PORT_NUM) (cand, seq)

/-- Calls emitted by the first `SwitchPorts` drain loop (lines 342-347):
while `head_idx` is nonzero it is decremented and the port number
`array[head_idx]` is configured, so the emitted port numbers are
`array[h-1], ..., array[0]`. -/
def drainHead (arr : Nat → Nat) : Nat → List Nat
  | 0 => []
  | h + 1 => arr h :: drainHead arr h

/-- Number of iterations of the second `SwitchPorts` drain loop: `tail_idx`
is a `uint8_t` incremented (mod 256) until it equals
`DIGITAL_MAX_PORT_NUM - 1`. -/
def drainTailLen (t : Nat) : Nat :=
  (DIGITAL_MAX_PORT_NUM - 1 + 256 - t % 256) % 256

/-- Calls emitted by the second `SwitchPorts` drain loop (lines 350-354):
the port numbers `array[(t+1) % 256], ..., array[DIGITAL_MAX_PORT_NUM - 1]`
(the mod accounts for the `uint8_t` wraparound that occurs when all six
ports were queued at the tail and `tail_idx` underflowed to 255). -/
def drainTail (arr : Nat → Nat) (t : Nat) : List Nat :=
  (List.range (drainTailLen t)).map fun k => arr ((t + 1 + k) % 256)

/-- Flag reset performed on every port at the end of `SwitchPorts`
(lines 367-368). -/
def clearFlagsPort (pr : DIGITAL_PORT_TypeDef) : DIGITAL_PORT_TypeDef :=
  { pr with change_pin := UNCHANGED, change_io := UNCHANGED }

/-- Result of a `USBD_HID_Digital_IO_SwitchPorts` call: the final live
state `digital_io`, the final sequencer, the trace of port numbers passed
to `USBD_HID_Digital_IO_GPIO_Setup` (in call order), and the trace of
`GPIO_Write_DIGITAL_IO` pin writes. -/
structure SwitchPortsResult where
  live : HID_DIGITAL_IO_TypeDef
  seq : ORDERED_ARRAY
  setups : List Nat
  pin_writes : List (Fin DIGITAL_MAX_PORT_NUM × Fin DIGITAL_MAX_PIN_NUM × Nat)

/-- Embedding of `USBD_HID_Digital_IO_SwitchPorts`: copy the candidate
state over the live state, drain the head range then the tail range of the
sequencer (emitting one hardware-setup call per drained entry; both loops
exit with `head_idx = 0` and `tail_idx = DIGITAL_MAX_PORT_NUM - 1`), write
the pins of every port whose `change_pin` flag is set, and clear both
change flags of every port. -/
def USBD_HID_Digital_IO_SwitchPorts (cand : HID_DIGITAL_IO_TypeDef)
    (seq : ORDERED_ARRAY) : SwitchPortsResult :=
  { live := { cand with ports := fun p => clearFlagsPort (cand.ports p) }
    seq := { seq with head_idx := 0, tail_idx := DIGITAL_MAX_PORT_NUM - 1 }
    setups := drainHead seq.array seq.head_idx ++ drainTail seq.array seq.tail_idx
    pin_writes := (List.finRange DIGITAL_MAX_PORT_NUM).foldr
      (fun p acc =>
        (if (cand.ports p).change_pin = CHANGED then
          (List.finRange DIGITAL_MAX_PIN_NUM).map (fun k => (p, k, (cand.ports p).pins k))
        else []) ++ acc) [] }

/-- Settings of the port numbered `n` of a state (out-of-range numbers,
which never occur in reachable sequencer entries, yield a dummy). -/
def portSettings (st : HID_DIGITAL_IO_TypeDef) (n : Nat) : GPIO_Settings :=
  if h : n < DIGITAL_MAX_PORT_NUM then (st.ports ⟨n, h⟩).gpio_settings
  else { Mode := 0, Pull := 0, Pin := 0 }

/-- Embedding of `USBD_HID_Digital_IO_GPIO_Setup`: the `GPIO_InitTypeDef`
(mode, pull, pin mask) passed to `HAL_GPIO_Init` for sequencer slot `idx`
is read from the live state's port numbered `array[idx]`. -/
def USBD_HID_Digital_IO_GPIO_Setup (st : HID_DIGITAL_IO_TypeDef)
    (seq : ORDERED_ARRAY) (idx : Nat) : GPIO_Settings :=
  portSettings st (seq.array idx)

/-- Mode of the port numbered `n` of a state (helper for stating the
two-phase ordering property over the setup-call trace). -/
def portModeAt (st : HID_DIGITAL_IO_TypeDef) (n : Nat) : Nat :=
  (portSettings st n).Mode

/-- The four `uint8_t` report bytes built by `CreateReport`. -/
structure Report4 where
  b0 : Nat
  b1 : Nat
  b2 : Nat
  b3 : Nat
deriving DecidableEq

/-- A `uint8_t` in-place addition `x += v`. -/
def byteAdd (x v : Nat) : Nat := (x + v) % 256

/-- In-place addition into `report[n]` for a dynamic index `n`
(`report_num` is always 0..3 in reachable executions). -/
def updAt (r : Report4) (n v : Nat) : Report4 :=
  match n with
  | 0 => { r with b0 := byteAdd r.b0 v }
  | 1 => { r with b1 := byteAdd r.b1 v }
  | 2 => { r with b2 := byteAdd r.b2 v }
  | 3 => { r with b3 := byteAdd r.b3 v }
  | _ => r

/-- One iteration of the port loop of `USBD_HID_Digital_IO_CreateReport`
(lines 140-165): add the port's mode bit into byte 0, update
`report_num`/`offset` from the port parity, then add each pin value into
byte `report_num` at bit `pin + offset`. -/
def reportStep (st : HID_DIGITAL_IO_TypeDef) (acc : Report4 × Nat × Nat)
    (p : Fin DIGITAL_MAX_PORT_NUM) : Report4 × Nat × Nat :=
  let rep1 := updAt acc.1 0 ((st.ports p).gpio_settings.Mode <<< p.val)
  let rn := if p.val % 2 = 0 then acc.2.1 + 1 else acc.2.1
  let off := if p.val % 2 = 0 then 0 else 4
  let rep2 := (List.finRange DIGITAL_MAX_PIN_NUM).foldl
    (fun r k => updAt r rn (((st.ports p).pins k) <<< (k.val + off))) rep1
  (rep2, rn, off)

/-- Embedding of `USBD_HID_Digital_IO_CreateReport`: the 4-byte status
report encoded from the live state. -/
def USBD_HID_Digital_IO_CreateReport (st : HID_DIGITAL_IO_TypeDef) : Report4 :=
  ((List.finRange DIGITAL_MAX_PORT_NUM).foldl (reportStep st)
    ({ b0 := 0, b1 := 0, b2 := 0, b3 := 0 }, 0, 0)).1

/-- Well-formedness of a digital state as described by the data model:
every mode is Input (0) or Output (1) and every pin value is Low (0) or
High (1).  All states reachable through `Init` / `Set_Changes` /
`SwitchPorts` satisfy this. -/
def DigitalWF (st : HID_DIGITAL_IO_TypeDef) : Prop :=
  ∀ p : Fin DIGITAL_MAX_PORT_NUM,
    (st.ports p).gpio_settings.Mode ≤ 1 ∧ ∀ k : Fin DIGITAL_MAX_PIN_NUM, (st.ports p).pins k ≤ 1

instance (st : HID_DIGITAL_IO_TypeDef) : Decidable (DigitalWF st) := by
  unfold DigitalWF; infer_instance

/-! Helper abstractions: the value computed for one port is independent of
the sequencer, and the sequencer update for one port is independent of the
candidate state.  `stepPortRT` and `pushKind`/`applyPush` make the two
projections of `stepPort` explicit. -/

/-- Candidate-port value computed by one iteration of the `Set_Changes`
port loop (the sequencer argument of `stepPort` does not influence it). -/
def stepPortRT (g : Fin DIGITAL_MAX_PORT_NUM → Fin DIGITAL_MAX_PIN_NUM → Nat)
    (livePort candPort : DIGITAL_PORT_TypeDef) (p : Fin DIGITAL_MAX_PORT_NUM)
    (b : Nat) : DIGITAL_PORT_TypeDef :=
  (stepPort g livePort candPort p b { array := fun _ => 0, head_idx := 0, tail_idx := 0 }).1

/-- Sequencer action requested by one port: `none` means no push,
`some false` a push at the head cursor, `some true` a push at the tail
cursor. -/
def pushKind (lp : DIGITAL_PORT_TypeDef) (b : Nat) : Option Bool :=
  if b &&& 0x01 = CHANGED then
    let newMode := if b &&& 0x02 = OUTPUT then GPIO_MODE_OUTPUT_PP else GPIO_MODE_INPUT
    let newPull :=
      if b &&& 0x0C = NOPULL then GPIO_NOPULL
      else if b &&& 0x0C = PULLDOWN then GPIO_PULLDOWN
      else if b &&& 0x0C = PULLUP then GPIO_PULLUP
      else GPIO_NOPULL
    if newMode ≠ lp.gpio_settings.Mode ∨ newPull ≠ lp.gpio_settings.Pull then
      if newMode = GPIO_MODE_OUTPUT_PP then some true else some false
    else none
  else none

/-- Apply one sequencer push (or no push) to the switch buffer. -/
def applyPush (seq : ORDERED_ARRAY) (p : Fin DIGITAL_MAX_PORT_NUM) :
    Option Bool → ORDERED_ARRAY
  | none => seq
  | some true =>
      { seq with array := Function.update seq.array seq.tail_idx p.val
                 tail_idx := (seq.tail_idx + 255) % 256 }
  | some false =>
      { seq with array := Function.update seq.array seq.head_idx p.val
                 head_idx := (seq.head_idx + 1) % 256 }

theorem stepPort_fst (g : Fin DIGITAL_MAX_PORT_NUM → Fin DIGITAL_MAX_PIN_NUM → Nat)
    (lp cp : DIGITAL_PORT_TypeDef) (p : Fin DIGITAL_MAX_PORT_NUM) (b : Nat)
    (seq : ORDERED_ARRAY) :
    (stepPort g lp cp p b seq).1 = stepPortRT g lp cp p b := by
  unfold stepPortRT stepPort
  by_cases h1 : b &&& 0x01 = CHANGED
  · simp [h1]
  · simp only [if_neg h1]

theorem stepPort_snd (g : Fin DIGITAL_MAX_PORT_NUM → Fin DIGITAL_MAX_PIN_NUM → Nat)
    (lp cp : DIGITAL_PORT_TypeDef) (p : Fin DIGITAL_MAX_PORT_NUM) (b : Nat)
    (seq : ORDERED_ARRAY) :
    (stepPort g lp cp p b seq).2 = applyPush seq p (pushKind lp b) := by
  unfold stepPort pushKind applyPush
  by_cases h1 : b &&& 0x01 = CHANGED
  · by_cases hm : b &&& 0x02 = OUTPUT
    · by_cases hcio : (GPIO_MODE_OUTPUT_PP ≠ lp.gpio_settings.Mode ∨
          (if b &&& 0x0C = NOPULL then GPIO_NOPULL
           else if b &&& 0x0C = PULLDOWN then GPIO_PULLDOWN
           else if b &&& 0x0C = PULLUP then GPIO_PULLUP
           else GPIO_NOPULL) ≠ lp.gpio_settings.Pull) <;>
        simp [h1, hm, hcio]
    · by_cases hcio : (GPIO_MODE_INPUT ≠ lp.gpio_settings.Mode ∨
          (if b &&& 0x0C = NOPULL then GPIO_NOPULL
           else if b &&& 0x0C = PULLDOWN then GPIO_PULLDOWN
           else if b &&& 0x0C = PULLUP then GPIO_PULLUP
           else GPIO_NOPULL) ≠ lp.gpio_settings.Pull) <;>
        simp [h1, hm, hcio]
  · simp only [if_neg h1]

/-- Sequencer evolution of the whole port loop, as a fold of pushes. -/
def pushRun (live : HID_DIGITAL_IO_TypeDef) (buff : Fin DIGITAL_MAX_PORT_NUM → Nat) :
    List (Fin DIGITAL_MAX_PORT_NUM) → ORDERED_ARRAY → ORDERED_ARRAY
  | [], s => s
  | p :: ps, s => pushRun live buff ps (applyPush s p (pushKind (live.ports p) (buff p)))

theorem setLoop_snd (g : Fin DIGITAL_MAX_PORT_NUM → Fin DIGITAL_MAX_PIN_NUM → Nat)
    (live : HID_DIGITAL_IO_TypeDef) (buff : Fin DIGITAL_MAX_PORT_NUM → Nat) :
    ∀ (ps : List (Fin DIGITAL_MAX_PORT_NUM)) (s : HID_DIGITAL_IO_TypeDef × ORDERED_ARRAY),
      (setLoop g live buff ps s).2 = pushRun live buff ps s.2 := by
  intro ps
  induction ps with
  | nil => intro s; rfl
  | cons p ps ih =>
      intro s
      rw [setLoop, pushRun, ih, stepPort_snd]

theorem setLoop_fst_notmem (g : Fin DIGITAL_MAX_PORT_NUM → Fin DIGITAL_MAX_PIN_NUM → Nat)
    (live : HID_DIGITAL_IO_TypeDef) (buff : Fin DIGITAL_MAX_PORT_NUM → Nat) :
    ∀ (ps : List (Fin DIGITAL_MAX_PORT_NUM)) (s : HID_DIGITAL_IO_TypeDef × ORDERED_ARRAY)
      (q : Fin DIGITAL_MAX_PORT_NUM), q ∉ ps →
      (setLoop g live buff ps s).1.ports q = s.1.ports q := by
  intro ps
  induction ps with
  | nil => intro s q _; rfl
  | cons p ps ih =>
      intro s q hq
      have hqp : q ≠ p := by rintro rfl; exact hq (List.mem_cons_self q ps)
      have hq' : q ∉ ps := fun h => hq (List.mem_cons_of_mem _ h)
      rw [setLoop, ih _ q hq']
      exact Function.update_noteq hqp _ _

theorem setLoop_fst_mem (g : Fin DIGITAL_MAX_PORT_NUM → Fin DIGITAL_MAX_PIN_NUM → Nat)
    (live : HID_DIGITAL_IO_TypeDef) (buff : Fin DIGITAL_MAX_PORT_NUM → Nat) :
    ∀ (ps : List (Fin DIGITAL_MAX_PORT_NUM)), ps.Nodup →
      ∀ (s : HID_DIGITAL_IO_TypeDef × ORDERED_ARRAY) (q : Fin DIGITAL_MAX_PORT_NUM),
      q ∈ ps →
      (setLoop g live buff ps s).1.ports q =
        stepPortRT g (live.ports q) (s.1.ports q) q (buff q) := by
  intro ps
  induction ps with
  | nil => intro _ s q hq; exact absurd hq (List.not_mem_nil q)
  | cons p ps ih =>
      intro hnd s q hq
      obtain ⟨hp, hnd'⟩ := List.nodup_cons.mp hnd
      rw [setLoop]
      rcases List.mem_cons.mp hq with hqp | hqm
      · subst hqp
        rw [setLoop_fst_notmem g live buff ps _ q hp]
        simp [Function.update_same, stepPort_fst]
      · have hqp : q ≠ p := by rintro rfl; exact hp hqm
        rw [ih hnd' _ q hqm]
        simp [Function.update_noteq hqp]

theorem pinLoop_fst_notmem (lp : Fin DIGITAL_MAX_PIN_NUM → Nat) (cio tp : Nat) :
    ∀ (ks : List (Fin DIGITAL_MAX_PIN_NUM)) (pins : Fin DIGITAL_MAX_PIN_NUM → Nat)
      (cpin : Nat) (k : Fin DIGITAL_MAX_PIN_NUM), k ∉ ks →
      (pinLoop lp cio tp pins cpin ks).1 k = pins k := by
  intro ks
  induction ks with
  | nil => intro pins cpin k _; rfl
  | cons j ks ih =>
      intro pins cpin k hk
      have hkj : k ≠ j := by rintro rfl; exact hk (List.mem_cons_self k ks)
      have hk' : k ∉ ks := fun h => hk (List.mem_cons_of_mem _ h)
      rw [pinLoop, ih _ _ k hk']
      exact Function.update_noteq hkj _ _

theorem pinLoop_fst_mem (lp : Fin DIGITAL_MAX_PIN_NUM → Nat) (cio tp : Nat) :
    ∀ (ks : List (Fin DIGITAL_MAX_PIN_NUM)) (pins : Fin DIGITAL_MAX_PIN_NUM → Nat)
      (cpin : Nat) (k : Fin DIGITAL_MAX_PIN_NUM), k ∈ ks →
      (pinLoop lp cio tp pins cpin ks).1 k = (tp >>> k.val) &&& 0x01 := by
  intro ks
  induction ks with
  | nil => intro _ _ k hk; exact absurd hk (List.not_mem_nil k)
  | cons j ks ih =>
      intro pins cpin k hk
      by_cases hk' : k ∈ ks
      · rw [pinLoop, ih _ _ k hk']
      · have hkj : k = j := by
          rcases List.mem_cons.mp hk with h | h
          · exact h
          · exact absurd h hk'
        subst hkj
        rw [pinLoop, pinLoop_fst_notmem lp cio tp ks _ _ k hk']
        exact Function.update_same _ _ _

theorem pinLoop_snd_concat (lp : Fin DIGITAL_MAX_PIN_NUM → Nat) (cio tp : Nat) :
    ∀ (l : List (Fin DIGITAL_MAX_PIN_NUM)) (k : Fin DIGITAL_MAX_PIN_NUM)
      (pins : Fin DIGITAL_MAX_PIN_NUM → Nat) (cpin : Nat),
      (pinLoop lp cio tp pins cpin (l ++ [k])).2 =
        if (((tp >>> k.val) &&& 0x01) ≠ lp k ∧ cio = UNCHANGED) ∨ cio = CHANGED
        then CHANGED else UNCHANGED := by
  intro l
  induction l with
  | nil => intro k pins cpin; rw [List.nil_append, pinLoop, pinLoop]
  | cons j l ih =>
      intro k pins cpin
      rw [List.cons_append, pinLoop, ih]

/-- Representation of the switch sequencer contents: `hs` is the list of
ports pushed at the head cursor (in push order, stored at indices
`0 .. hs.length - 1`) and `ts` the list of ports pushed at the tail cursor
(in push order, stored at index 5 downwards, the tail cursor wrapping to
255 when all six ports are tail-pushed). -/
def SeqRepr (seq : ORDERED_ARRAY) (hs ts : List (Fin DIGITAL_MAX_PORT_NUM)) : Prop :=
  seq.head_idx = hs.length ∧
  seq.tail_idx = (261 - ts.length) % 256 ∧
  (∀ i, (h : i < hs.length) → seq.array i = (hs[i]).val) ∧
  (∀ j, (h : j < ts.length) → seq.array (5 - j) = (ts[j]).val)

theorem pushRun_spec (live : HID_DIGITAL_IO_TypeDef) (buff : Fin DIGITAL_MAX_PORT_NUM → Nat) :
    ∀ (ps : List (Fin DIGITAL_MAX_PORT_NUM)), ps.Nodup →
    ∀ (seq : ORDERED_ARRAY) (hs ts : List (Fin DIGITAL_MAX_PORT_NUM)),
      SeqRepr seq hs ts → hs.length + ts.length + ps.length ≤ 6 →
      ∃ hs2 ts2 : List (Fin DIGITAL_MAX_PORT_NUM),
        SeqRepr (pushRun live buff ps seq) (hs ++ hs2) (ts ++ ts2) ∧
        hs2.length + ts2.length ≤ ps.length ∧
        (∀ p, p ∈ hs2 → p ∈ ps) ∧ (∀ p, p ∈ ts2 → p ∈ ps) ∧
        ∀ p ∈ ps,
          (p ∈ hs2 ↔ pushKind (live.ports p) (buff p) = some false) ∧
          (p ∈ ts2 ↔ pushKind (live.ports p) (buff p) = some true) := by
  intro ps
  induction ps with
  | nil =>
      intro _ seq hs ts hrep _
      refine ⟨[], [], by simpa using hrep, by simp, by simp, by simp, by simp⟩
  | cons p ps ih =>
      intro hnd seq hs ts hrep hlen
      obtain ⟨hp, hnd'⟩ := List.nodup_cons.mp hnd
      obtain ⟨h_head, h_tail, h_harr, h_tarr⟩ := hrep
      simp only [List.length_cons] at hlen
      have hlen5 : hs.length + ts.length ≤ 5 := by omega
      rw [pushRun]
      rcases hpk : pushKind (live.ports p) (buff p) with _ | b
      · -- no push for port p
        simp only [applyPush]
        obtain ⟨hs2, ts2, hrep2, hlen2, hsub1, hsub2, hiff⟩ :=
          ih hnd' seq hs ts ⟨h_head, h_tail, h_harr, h_tarr⟩ (by omega)
        refine ⟨hs2, ts2, hrep2, by simp only [List.length_cons]; omega,
          fun q hq => List.mem_cons_of_mem _ (hsub1 q hq),
          fun q hq => List.mem_cons_of_mem _ (hsub2 q hq), ?_⟩
        intro q hq
        rcases List.mem_cons.mp hq with rfl | hq'
        · refine ⟨⟨fun hmem => absurd (hsub1 _ hmem) hp, fun hcontra => ?_⟩,
            ⟨fun hmem => absurd (hsub2 _ hmem) hp, fun hcontra => ?_⟩⟩
          · rw [hpk] at hcontra; cases hcontra
          · rw [hpk] at hcontra; cases hcontra
        · exact hiff q hq'
      · rcases b with _ | _
        · -- push at the head cursor
          simp only [applyPush]
          have hrep1 : SeqRepr
              { array := Function.update seq.array seq.head_idx p.val
                head_idx := (seq.head_idx + 1) % 256
                tail_idx := seq.tail_idx } (hs ++ [p]) ts := by
            refine ⟨?_, ?_, ?_, ?_⟩
            · simp only [List.length_append, List.length_singleton]
              rw [h_head]
              omega
            · simpa using h_tail
            · intro i hi
              simp only [List.length_append, List.length_singleton] at hi
              rcases Nat.lt_or_ge i hs.length with hilt | hige
              · have hne : i ≠ seq.head_idx := by rw [h_head]; omega
                simp only [Function.update_noteq hne]
                rw [h_harr i hilt, List.getElem_append_left hilt]
              · have hieq : i = hs.length := by omega
                subst hieq
                rw [h_head]
                simp only [Function.update_same]
                exact (congrArg Fin.val (List.getElem_concat_length hs p hs.length rfl _)).symm
            · intro j hj
              have hne : 5 - j ≠ seq.head_idx := by rw [h_head]; omega
              simp only [Function.update_noteq hne]
              exact h_tarr j hj
          obtain ⟨hs2, ts2, hrep2, hlen2, hsub1, hsub2, hiff⟩ :=
            ih hnd' _ (hs ++ [p]) ts hrep1
              (by simp only [List.length_append, List.length_singleton]; omega)
          refine ⟨p :: hs2, ts2, ?_, by simp only [List.length_cons]; omega, ?_, ?_, ?_⟩
          · rw [List.append_cons hs p hs2]
            exact hrep2
          · intro q hq
            rcases List.mem_cons.mp hq with rfl | hq'
            · exact List.mem_cons_self q ps
            · exact List.mem_cons_of_mem _ (hsub1 q hq')
          · intro q hq
            exact List.mem_cons_of_mem _ (hsub2 q hq)
          · intro q hq
            rcases List.mem_cons.mp hq with rfl | hq'
            · refine ⟨⟨fun _ => hpk, fun _ => List.mem_cons_self q hs2⟩,
                ⟨fun hmem => absurd (hsub2 _ hmem) hp, fun hcontra => ?_⟩⟩
              rw [hpk] at hcontra; cases hcontra
            · have hqp : q ≠ p := by rintro rfl; exact hp hq'
              refine ⟨?_, (hiff q hq').2⟩
              rw [List.mem_cons]
              constructor
              · intro hmem
                rcases hmem with h | h
                · exact absurd h hqp
                · exact ((hiff q hq').1).mp h
              · intro h; exact Or.inr (((hiff q hq').1).mpr h)
        · -- push at the tail cursor
          simp only [applyPush]
          have htval : seq.tail_idx = 5 - ts.length := by rw [h_tail]; omega
          have hrep1 : SeqRepr
              { array := Function.update seq.array seq.tail_idx p.val
                head_idx := seq.head_idx
                tail_idx := (seq.tail_idx + 255) % 256 } hs (ts ++ [p]) := by
            refine ⟨h_head, ?_, ?_, ?_⟩
            · simp only [List.length_append, List.length_singleton]
              rw [htval]
              omega
            · intro i hi
              have hne : i ≠ seq.tail_idx := by rw [htval]; omega
              simp only [Function.update_noteq hne]
              exact h_harr i hi
            · intro j hj
              simp only [List.length_append, List.length_singleton] at hj
              rcases Nat.lt_or_ge j ts.length with hjlt | hjge
              · have hne : 5 - j ≠ seq.tail_idx := by rw [htval]; omega
                simp only [Function.update_noteq hne]
                rw [h_tarr j hjlt, List.getElem_append_left hjlt]
              · have hjeq : j = ts.length := by omega
                subst hjeq
                rw [htval]
                simp only [Function.update_same]
                exact (congrArg Fin.val (List.getElem_concat_length ts p ts.length rfl _)).symm
          obtain ⟨hs2, ts2, hrep2, hlen2, hsub1, hsub2, hiff⟩ :=
            ih hnd' _ hs (ts ++ [p]) hrep1
              (by simp only [List.length_append, List.length_singleton]; omega)
          refine ⟨hs2, p :: ts2, ?_, by simp only [List.length_cons]; omega, ?_, ?_, ?_⟩
          · rw [List.append_cons ts p ts2]
            exact hrep2
          · intro q hq
            exact List.mem_cons_of_mem _ (hsub1 q hq)
          · intro q hq
            rcases List.mem_cons.mp hq with rfl | hq'
            · exact List.mem_cons_self q ps
            · exact List.mem_cons_of_mem _ (hsub2 q hq')
          · intro q hq
            rcases List.mem_cons.mp hq with rfl | hq'
            · refine ⟨⟨fun hmem => absurd (hsub1 _ hmem) hp, fun hcontra => ?_⟩,
                ⟨fun _ => hpk, fun _ => List.mem_cons_self q ts2⟩⟩
              rw [hpk] at hcontra; cases hcontra
            · have hqp : q ≠ p := by rintro rfl; exact hp hq'
              refine ⟨(hiff q hq').1, ?_⟩
              rw [List.mem_cons]
              constructor
              · intro hmem
                rcases hmem with h | h
                · exact absurd h hqp
                · exact ((hiff q hq').2).mp h
              · intro h; exact Or.inr (((hiff q hq').2).mpr h)

theorem drainHead_repr (arr : Nat → Nat) :
    ∀ hs : List (Fin DIGITAL_MAX_PORT_NUM),
      (∀ i, (h : i < hs.length) → arr i = (hs[i]).val) →
      drainHead arr hs.length = (hs.map Fin.val).reverse := by
  intro hs
  induction hs using List.reverseRecOn with
  | nil => intro _; rfl
  | append_singleton ys y ih =>
      intro harr
      have hlen : (ys ++ [y]).length = ys.length + 1 := by simp
      rw [hlen, drainHead]
      have h1 : arr ys.length = y.val := by
        have := harr ys.length (by simp)
        rwa [List.getElem_concat_length ys y ys.length rfl] at this
      have h2 : drainHead arr ys.length = (ys.map Fin.val).reverse := by
        refine ih ?_
        intro i hi
        have := harr i (by simp; omega)
        rwa [List.getElem_append_left hi] at this
      rw [h1, h2]
      simp

theorem drainTail_repr (arr : Nat → Nat) :
    ∀ ts : List (Fin DIGITAL_MAX_PORT_NUM), ts.length ≤ 6 →
      (∀ j, (h : j < ts.length) → arr (5 - j) = (ts[j]).val) →
      drainTail arr ((261 - ts.length) % 256) = (ts.map Fin.val).reverse := by
  intro ts hlen harr
  have hdl : drainTailLen ((261 - ts.length) % 256) = ts.length := by
    show (6 - 1 + 256 - ((261 - ts.length) % 256) % 256) % 256 = ts.length
    omega
  unfold drainTail
  rw [hdl]
  refine List.ext_getElem (by simp) ?_
  intro k h1 h2
  simp only [List.getElem_map, List.getElem_range, List.getElem_reverse]
  have hk : k < ts.length := by simpa using h1
  have hidx : ((261 - ts.length) % 256 + 1 + k) % 256 = 5 - (ts.length - 1 - k) := by
    omega
  rw [hidx, harr (ts.length - 1 - k) (by omega)]
  congr 1
  simp only [List.length_map]

/-- Characterization of one full transition-plus-commit cycle starting from
a sequencer in its reset position (`head_idx = 0`,
`tail_idx = DIGITAL_MAX_PORT_NUM - 1`): the hardware-setup call trace is
the drained head range followed by the drained tail range, the head range
holds exactly the ports classified for a head push and the tail range
exactly those classified for a tail push. -/
theorem cycle_setups_spec (g : Fin DIGITAL_MAX_PORT_NUM → Fin DIGITAL_MAX_PIN_NUM → Nat)
    (live : HID_DIGITAL_IO_TypeDef) (buff : Fin DIGITAL_MAX_PORT_NUM → Nat)
    (cand : HID_DIGITAL_IO_TypeDef) (arr0 : Nat → Nat) :
    ∃ hs ts : List (Fin DIGITAL_MAX_PORT_NUM),
      (USBD_HID_Digital_IO_SwitchPorts
          (USBD_HID_Digital_IO_Set_Changes g live buff cand
            { array := arr0, head_idx := 0, tail_idx := 5 }).1
          (USBD_HID_Digital_IO_Set_Changes g live buff cand
            { array := arr0, head_idx := 0, tail_idx := 5 }).2).setups
        = (hs.map Fin.val).reverse ++ (ts.map Fin.val).reverse ∧
      ∀ p : Fin DIGITAL_MAX_PORT_NUM,
        (p ∈ hs ↔ pushKind (live.ports p) (buff p) = some false) ∧
        (p ∈ ts ↔ pushKind (live.ports p) (buff p) = some true) := by
  have hseq : (USBD_HID_Digital_IO_Set_Changes g live buff cand
      { array := arr0, head_idx := 0, tail_idx := 5 }).2 =
      pushRun live buff (List.finRange DIGITAL_MAX_PORT_NUM)
        { array := arr0, head_idx := 0, tail_idx := 5 } := by
    unfold USBD_HID_Digital_IO_Set_Changes
    exact setLoop_snd g live buff _ _
  have hrep0 : SeqRepr { array := arr0, head_idx := 0, tail_idx := 5 } [] [] := by
    refine ⟨rfl, rfl, ?_, ?_⟩ <;> intro i hi <;> exact absurd hi (by simp)
  obtain ⟨hs, ts, hrep, hlens, _, _, hiff⟩ :=
    pushRun_spec live buff (List.finRange DIGITAL_MAX_PORT_NUM)
      (List.nodup_finRange _) _ [] [] hrep0 (by simp)
  simp only [List.nil_append] at hrep
  obtain ⟨h_head, h_tail, h_harr, h_tarr⟩ := hrep
  refine ⟨hs, ts, ?_, ?_⟩
  · unfold USBD_HID_Digital_IO_SwitchPorts
    simp only
    rw [hseq, h_head, h_tail]
    rw [drainHead_repr _ hs h_harr]
    rw [drainTail_repr _ ts (by simp only [List.length_finRange, DIGITAL_MAX_PORT_NUM] at hlens; omega) h_tarr]
  · intro p
    exact hiff p (List.mem_finRange p)

theorem pushKind_eq_iff (g : Fin DIGITAL_MAX_PORT_NUM → Fin DIGITAL_MAX_PIN_NUM → Nat)
    (lp cp : DIGITAL_PORT_TypeDef) (p : Fin DIGITAL_MAX_PORT_NUM) (b : Nat) :
    (pushKind lp b = some false ↔
      ((stepPortRT g lp cp p b).change_io = CHANGED ∧
       (stepPortRT g lp cp p b).gpio_settings.Mode = GPIO_MODE_INPUT)) ∧
    (pushKind lp b = some true ↔
      ((stepPortRT g lp cp p b).change_io = CHANGED ∧
       (stepPortRT g lp cp p b).gpio_settings.Mode = GPIO_MODE_OUTPUT_PP)) := by
  unfold pushKind stepPortRT stepPort
  by_cases h1 : b &&& 0x01 = CHANGED
  · by_cases hm : b &&& 0x02 = OUTPUT
    · by_cases hcio : (GPIO_MODE_OUTPUT_PP ≠ lp.gpio_settings.Mode ∨
          (if b &&& 0x0C = NOPULL then GPIO_NOPULL
           else if b &&& 0x0C = PULLDOWN then GPIO_PULLDOWN
           else if b &&& 0x0C = PULLUP then GPIO_PULLUP
           else GPIO_NOPULL) ≠ lp.gpio_settings.Pull) <;>
        simp [h1, hm, hcio]
    · by_cases hcio : (GPIO_MODE_INPUT ≠ lp.gpio_settings.Mode ∨
          (if b &&& 0x0C = NOPULL then GPIO_NOPULL
           else if b &&& 0x0C = PULLDOWN then GPIO_PULLDOWN
           else if b &&& 0x0C = PULLUP then GPIO_PULLUP
           else GPIO_NOPULL) ≠ lp.gpio_settings.Pull) <;>
        simp [h1, hm, hcio]
  · simp only [if_neg h1]
    simp [defaultPort]

theorem portModeAt_val (st : HID_DIGITAL_IO_TypeDef) (p : Fin DIGITAL_MAX_PORT_NUM) :
    portModeAt st p.val = (st.ports p).gpio_settings.Mode := by
  unfold portModeAt portSettings
  rw [dif_pos p.isLt]

/-- Claim C1: for every commit cycle (transition computation from a reset
sequencer followed by `SwitchPorts`), the hardware-setup trace is the
drained head range followed by the drained tail range; the head range
holds exactly the ports with `change_io` set whose candidate mode is
Input, the tail range exactly those whose candidate mode is Output, and
consequently every setup call for a port whose new mode is Input occurs
strictly before every setup call for a port whose new mode is Output. -/
theorem C1_two_phase_order (g : Fin DIGITAL_MAX_PORT_NUM → Fin DIGITAL_MAX_PIN_NUM → Nat)
    (live cand : HID_DIGITAL_IO_TypeDef) (buff : Fin DIGITAL_MAX_PORT_NUM → Nat)
    (arr0 : Nat → Nat) (sc : HID_DIGITAL_IO_TypeDef × ORDERED_ARRAY)
    (r : SwitchPortsResult)
    (hsc : sc = USBD_HID_Digital_IO_Set_Changes g live buff cand
      { array := arr0, head_idx := 0, tail_idx := DIGITAL_MAX_PORT_NUM - 1 })
    (hr : r = USBD_HID_Digital_IO_SwitchPorts sc.1 sc.2) :
    ∃ mk dr : List Nat,
      r.setups = mk ++ dr ∧
      (∀ n ∈ mk, ∃ p : Fin DIGITAL_MAX_PORT_NUM, n = p.val ∧
        (sc.1.ports p).change_io = CHANGED ∧
        (sc.1.ports p).gpio_settings.Mode = GPIO_MODE_INPUT) ∧
      (∀ n ∈ dr, ∃ p : Fin DIGITAL_MAX_PORT_NUM, n = p.val ∧
        (sc.1.ports p).change_io = CHANGED ∧
        (sc.1.ports p).gpio_settings.Mode = GPIO_MODE_OUTPUT_PP) ∧
      (∀ p : Fin DIGITAL_MAX_PORT_NUM, (sc.1.ports p).change_io = CHANGED →
        ((sc.1.ports p).gpio_settings.Mode = GPIO_MODE_INPUT → p.val ∈ mk) ∧
        ((sc.1.ports p).gpio_settings.Mode = GPIO_MODE_OUTPUT_PP → p.val ∈ dr)) ∧
      (∀ i j, (hi : i < r.setups.length) → (hj : j < r.setups.length) →
        portModeAt sc.1 (r.setups[i]) = GPIO_MODE_INPUT →
        portModeAt sc.1 (r.setups[j]) = GPIO_MODE_OUTPUT_PP →
        i < j) := by
  subst hsc
  subst hr
  obtain ⟨hs, ts, hset, hiff⟩ := cycle_setups_spec g live buff cand arr0
  have hfinal : ∀ p : Fin DIGITAL_MAX_PORT_NUM,
      (USBD_HID_Digital_IO_Set_Changes g live buff cand
        { array := arr0, head_idx := 0, tail_idx := DIGITAL_MAX_PORT_NUM - 1 }).1.ports p =
      stepPortRT g (live.ports p) (cand.ports p) p (buff p) :=
    fun p => setLoop_fst_mem g live buff _ (List.nodup_finRange _) _ p (List.mem_finRange p)
  refine ⟨(hs.map Fin.val).reverse, (ts.map Fin.val).reverse, hset, ?_, ?_, ?_, ?_⟩
  · intro n hn
    rw [List.mem_reverse, List.mem_map] at hn
    obtain ⟨p, hp, hpn⟩ := hn
    have hpk := ((hiff p).1).mp hp
    have hfields := ((pushKind_eq_iff g (live.ports p) (cand.ports p) p (buff p)).1).mp hpk
    exact ⟨p, hpn.symm, by rw [hfinal p]; exact hfields.1, by rw [hfinal p]; exact hfields.2⟩
  · intro n hn
    rw [List.mem_reverse, List.mem_map] at hn
    obtain ⟨p, hp, hpn⟩ := hn
    have hpk := ((hiff p).2).mp hp
    have hfields := ((pushKind_eq_iff g (live.ports p) (cand.ports p) p (buff p)).2).mp hpk
    exact ⟨p, hpn.symm, by rw [hfinal p]; exact hfields.1, by rw [hfinal p]; exact hfields.2⟩
  · intro p hchg
    constructor
    · intro hmode
      rw [List.mem_reverse, List.mem_map]
      refine ⟨p, ?_, rfl⟩
      refine ((hiff p).1).mpr ?_
      refine ((pushKind_eq_iff g (live.ports p) (cand.ports p) p (buff p)).1).mpr ?_
      rw [hfinal p] at hchg hmode
      exact ⟨hchg, hmode⟩
    · intro hmode
      rw [List.mem_reverse, List.mem_map]
      refine ⟨p, ?_, rfl⟩
      refine ((hiff p).2).mpr ?_
      refine ((pushKind_eq_iff g (live.ports p) (cand.ports p) p (buff p)).2).mpr ?_
      rw [hfinal p] at hchg hmode
      exact ⟨hchg, hmode⟩
  · intro i j hi hj hmi hmj
    have hmk_mode : ∀ n ∈ (hs.map Fin.val).reverse,
        portModeAt (USBD_HID_Digital_IO_Set_Changes g live buff cand
          { array := arr0, head_idx := 0, tail_idx := DIGITAL_MAX_PORT_NUM - 1 }).1 n =
          GPIO_MODE_INPUT := by
      intro n hn
      rw [List.mem_reverse, List.mem_map] at hn
      obtain ⟨p, hp, hpn⟩ := hn
      have hpk := ((hiff p).1).mp hp
      have hfields := ((pushKind_eq_iff g (live.ports p) (cand.ports p) p (buff p)).1).mp hpk
      rw [← hpn, portModeAt_val, hfinal p]
      exact hfields.2
    have hdr_mode : ∀ n ∈ (ts.map Fin.val).reverse,
        portModeAt (USBD_HID_Digital_IO_Set_Changes g live buff cand
          { array := arr0, head_idx := 0, tail_idx := DIGITAL_MAX_PORT_NUM - 1 }).1 n =
          GPIO_MODE_OUTPUT_PP := by
      intro n hn
      rw [List.mem_reverse, List.mem_map] at hn
      obtain ⟨p, hp, hpn⟩ := hn
      have hpk := ((hiff p).2).mp hp
      have hfields := ((pushKind_eq_iff g (live.ports p) (cand.ports p) p (buff p)).2).mp hpk
      rw [← hpn, portModeAt_val, hfinal p]
      exact hfields.2
    have hi2 : i < ((hs.map Fin.val).reverse).length := by
      by_contra hge
      push_neg at hge
      have hilen : i < (((hs.map Fin.val).reverse) ++ ((ts.map Fin.val).reverse)).length := by
        rw [← hset]; exact hi
      have hmem : (((hs.map Fin.val).reverse) ++ ((ts.map Fin.val).reverse))[i] ∈
          (ts.map Fin.val).reverse := by
        rw [List.getElem_append_right hge]
        exact List.getElem_mem _
      have h1 := hdr_mode _ hmem
      have h0 : (((hs.map Fin.val).reverse) ++ ((ts.map Fin.val).reverse))[i] =
          (USBD_HID_Digital_IO_SwitchPorts
            (USBD_HID_Digital_IO_Set_Changes g live buff cand
              { array := arr0, head_idx := 0, tail_idx := DIGITAL_MAX_PORT_NUM - 1 }).1
            (USBD_HID_Digital_IO_Set_Changes g live buff cand
              { array := arr0, head_idx := 0, tail_idx := DIGITAL_MAX_PORT_NUM - 1 }).2).setups[i] := by
        congr 1
        exact hset.symm
      rw [h0] at h1
      rw [h1] at hmi
      cases hmi
    have hj2 : ((hs.map Fin.val).reverse).length ≤ j := by
      by_contra hlt
      push_neg at hlt
      have hjlen : j < (((hs.map Fin.val).reverse) ++ ((ts.map Fin.val).reverse)).length := by
        rw [← hset]; exact hj
      have hmem : (((hs.map Fin.val).reverse) ++ ((ts.map Fin.val).reverse))[j] ∈
          (hs.map Fin.val).reverse := by
        rw [List.getElem_append_left hlt]
        exact List.getElem_mem _
      have h1 := hmk_mode _ hmem
      have h0 : (((hs.map Fin.val).reverse) ++ ((ts.map Fin.val).reverse))[j] =
          (USBD_HID_Digital_IO_SwitchPorts
            (USBD_HID_Digital_IO_Set_Changes g live buff cand
              { array := arr0, head_idx := 0, tail_idx := DIGITAL_MAX_PORT_NUM - 1 }).1
            (USBD_HID_Digital_IO_Set_Changes g live buff cand
              { array := arr0, head_idx := 0, tail_idx := DIGITAL_MAX_PORT_NUM - 1 }).2).setups[j] := by
        congr 1
        exact hset.symm
      rw [h0] at h1
      rw [h1] at hmj
      cases hmj
    omega

theorem stepPortRT_inactive (g : Fin DIGITAL_MAX_PORT_NUM → Fin DIGITAL_MAX_PIN_NUM → Nat)
    (lp cp : DIGITAL_PORT_TypeDef) (p : Fin DIGITAL_MAX_PORT_NUM) (b : Nat)
    (h1 : ¬b &&& 0x01 = CHANGED) :
    stepPortRT g lp cp p b = defaultPort g p := by
  unfold stepPortRT stepPort
  simp only [if_neg h1]

theorem stepPortRT_mode_active (g : Fin DIGITAL_MAX_PORT_NUM → Fin DIGITAL_MAX_PIN_NUM → Nat)
    (lp cp : DIGITAL_PORT_TypeDef) (p : Fin DIGITAL_MAX_PORT_NUM) (b : Nat)
    (h1 : b &&& 0x01 = CHANGED) :
    (stepPortRT g lp cp p b).gpio_settings.Mode =
      (if b &&& 0x02 = OUTPUT then GPIO_MODE_OUTPUT_PP else GPIO_MODE_INPUT) := by
  simp [stepPortRT, stepPort, h1]

theorem stepPortRT_pull_active (g : Fin DIGITAL_MAX_PORT_NUM → Fin DIGITAL_MAX_PIN_NUM → Nat)
    (lp cp : DIGITAL_PORT_TypeDef) (p : Fin DIGITAL_MAX_PORT_NUM) (b : Nat)
    (h1 : b &&& 0x01 = CHANGED) :
    (stepPortRT g lp cp p b).gpio_settings.Pull =
      (if b &&& 0x0C = NOPULL then GPIO_NOPULL
       else if b &&& 0x0C = PULLDOWN then GPIO_PULLDOWN
       else if b &&& 0x0C = PULLUP then GPIO_PULLUP
       else GPIO_NOPULL) := by
  simp [stepPortRT, stepPort, h1]

theorem stepPortRT_pin_active (g : Fin DIGITAL_MAX_PORT_NUM → Fin DIGITAL_MAX_PIN_NUM → Nat)
    (lp cp : DIGITAL_PORT_TypeDef) (p : Fin DIGITAL_MAX_PORT_NUM) (b : Nat)
    (h1 : b &&& 0x01 = CHANGED) :
    (stepPortRT g lp cp p b).gpio_settings.Pin = cp.gpio_settings.Pin := by
  simp [stepPortRT, stepPort, h1]

theorem stepPortRT_cio_active (g : Fin DIGITAL_MAX_PORT_NUM → Fin DIGITAL_MAX_PIN_NUM → Nat)
    (lp cp : DIGITAL_PORT_TypeDef) (p : Fin DIGITAL_MAX_PORT_NUM) (b : Nat)
    (h1 : b &&& 0x01 = CHANGED) :
    (stepPortRT g lp cp p b).change_io =
      (if (if b &&& 0x02 = OUTPUT then GPIO_MODE_OUTPUT_PP else GPIO_MODE_INPUT) ≠
            lp.gpio_settings.Mode ∨
          (if b &&& 0x0C = NOPULL then GPIO_NOPULL
           else if b &&& 0x0C = PULLDOWN then GPIO_PULLDOWN
           else if b &&& 0x0C = PULLUP then GPIO_PULLUP
           else GPIO_NOPULL) ≠ lp.gpio_settings.Pull
       then CHANGED else UNCHANGED) := by
  simp [stepPortRT, stepPort, h1]

theorem stepPortRT_pins_output (g : Fin DIGITAL_MAX_PORT_NUM → Fin DIGITAL_MAX_PIN_NUM → Nat)
    (lp cp : DIGITAL_PORT_TypeDef) (p : Fin DIGITAL_MAX_PORT_NUM) (b : Nat)
    (h1 : b &&& 0x01 = CHANGED) (hm : b &&& 0x02 = OUTPUT) (k : Fin DIGITAL_MAX_PIN_NUM) :
    (stepPortRT g lp cp p b).pins k = (((b &&& 0xF0) >>> 4) >>> k.val) &&& 0x01 := by
  simp only [stepPortRT, stepPort, if_pos h1, if_pos hm]
  exact pinLoop_fst_mem _ _ _ _ _ _ _ (List.mem_finRange _)

theorem stepPortRT_pins_input (g : Fin DIGITAL_MAX_PORT_NUM → Fin DIGITAL_MAX_PIN_NUM → Nat)
    (lp cp : DIGITAL_PORT_TypeDef) (p : Fin DIGITAL_MAX_PORT_NUM) (b : Nat)
    (h1 : b &&& 0x01 = CHANGED) (hm : ¬b &&& 0x02 = OUTPUT) :
    (stepPortRT g lp cp p b).pins = cp.pins := by
  simp [stepPortRT, stepPort, h1, hm]

theorem stepPortRT_cpin_input (g : Fin DIGITAL_MAX_PORT_NUM → Fin DIGITAL_MAX_PIN_NUM → Nat)
    (lp cp : DIGITAL_PORT_TypeDef) (p : Fin DIGITAL_MAX_PORT_NUM) (b : Nat)
    (h1 : b &&& 0x01 = CHANGED) (hm : ¬b &&& 0x02 = OUTPUT) :
    (stepPortRT g lp cp p b).change_pin = UNCHANGED := by
  simp [stepPortRT, stepPort, h1, hm]

theorem stepPortRT_cpin_output (g : Fin DIGITAL_MAX_PORT_NUM → Fin DIGITAL_MAX_PIN_NUM → Nat)
    (lp cp : DIGITAL_PORT_TypeDef) (p : Fin DIGITAL_MAX_PORT_NUM) (b : Nat)
    (h1 : b &&& 0x01 = CHANGED) (hm : b &&& 0x02 = OUTPUT) :
    (stepPortRT g lp cp p b).change_pin =
      (if ((((b &&& 0xF0) >>> 4) >>> 3) &&& 0x01 ≠ lp.pins 3 ∧
            (stepPortRT g lp cp p b).change_io = UNCHANGED) ∨
          (stepPortRT g lp cp p b).change_io = CHANGED
       then CHANGED else UNCHANGED) := by
  have hfr : List.finRange DIGITAL_MAX_PIN_NUM =
      [(0 : Fin DIGITAL_MAX_PIN_NUM), 1, 2] ++ [3] := by decide
  rw [stepPortRT_cio_active g lp cp p b h1]
  simp only [stepPortRT, stepPort, if_pos h1, if_pos hm]
  rw [hfr, pinLoop_snd_concat]
  have h3 : ((3 : Fin DIGITAL_MAX_PIN_NUM) : Nat) = 3 := rfl
  rw [h3]

theorem pushRun_none (live : HID_DIGITAL_IO_TypeDef) (buff : Fin DIGITAL_MAX_PORT_NUM → Nat) :
    ∀ (ps : List (Fin DIGITAL_MAX_PORT_NUM)) (s : ORDERED_ARRAY),
      (∀ p ∈ ps, pushKind (live.ports p) (buff p) = none) →
      pushRun live buff ps s = s := by
  intro ps
  induction ps with
  | nil => intro s _; rfl
  | cons p ps ih =>
      intro s hnone
      rw [pushRun, hnone p (List.mem_cons_self p ps)]
      exact ih _ fun q hq => hnone q (List.mem_cons_of_mem _ hq)

theorem stepPortRT_idem (g : Fin DIGITAL_MAX_PORT_NUM → Fin DIGITAL_MAX_PIN_NUM → Nat)
    (lp cp : DIGITAL_PORT_TypeDef) (p : Fin DIGITAL_MAX_PORT_NUM) (b : Nat) :
    (stepPortRT g (clearFlagsPort (stepPortRT g lp cp p b))
        (stepPortRT g lp cp p b) p b).change_io = UNCHANGED ∧
    (stepPortRT g (clearFlagsPort (stepPortRT g lp cp p b))
        (stepPortRT g lp cp p b) p b).change_pin = UNCHANGED ∧
    pushKind (clearFlagsPort (stepPortRT g lp cp p b)) b = none := by
  have hset : (clearFlagsPort (stepPortRT g lp cp p b)).gpio_settings =
      (stepPortRT g lp cp p b).gpio_settings := rfl
  have hpins : (clearFlagsPort (stepPortRT g lp cp p b)).pins =
      (stepPortRT g lp cp p b).pins := rfl
  by_cases h1 : b &&& 0x01 = CHANGED
  · have hmode := stepPortRT_mode_active g lp cp p b h1
    have hpull := stepPortRT_pull_active g lp cp p b h1
    have hcio2 : (stepPortRT g (clearFlagsPort (stepPortRT g lp cp p b))
        (stepPortRT g lp cp p b) p b).change_io = UNCHANGED := by
      rw [stepPortRT_cio_active g _ _ p b h1, hset, hmode, hpull]
      simp
    have hpk : pushKind (clearFlagsPort (stepPortRT g lp cp p b)) b = none := by
      simp [pushKind, h1, hset, hmode, hpull]
    refine ⟨hcio2, ?_, hpk⟩
    by_cases hm : b &&& 0x02 = OUTPUT
    · rw [stepPortRT_cpin_output g _ _ p b h1 hm, hcio2, hpins,
        stepPortRT_pins_output g lp cp p b h1 hm 3]
      have h3 : ((3 : Fin DIGITAL_MAX_PIN_NUM) : Nat) = 3 := rfl
      rw [h3]
      simp
    · exact stepPortRT_cpin_input g _ _ p b h1 hm
  · have hd := stepPortRT_inactive g lp cp p b h1
    rw [hd]
    have hcd : clearFlagsPort (defaultPort g p) = defaultPort g p := rfl
    rw [hcd]
    refine ⟨?_, ?_, ?_⟩
    · rw [stepPortRT_inactive g _ _ p b h1]; rfl
    · rw [stepPortRT_inactive g _ _ p b h1]; rfl
    · unfold pushKind
      rw [if_neg h1]

/-- Claim C6: decoding and committing the same command buffer twice in a
row produces no reconfiguration work on the second pass: re-running the
transition computation on the same buffer after the first commit leaves
`change_io` and `change_pin` clear on every port, the switch sequencer
stays empty (cursors in their reset positions), and a second commit emits
no hardware-setup calls. -/
theorem C6_second_cycle_idempotent
    (g : Fin DIGITAL_MAX_PORT_NUM → Fin DIGITAL_MAX_PIN_NUM → Nat)
    (live cand : HID_DIGITAL_IO_TypeDef) (buff : Fin DIGITAL_MAX_PORT_NUM → Nat)
    (seq0 : ORDERED_ARRAY) (sc1 : HID_DIGITAL_IO_TypeDef × ORDERED_ARRAY)
    (r1 : SwitchPortsResult) (sc2 : HID_DIGITAL_IO_TypeDef × ORDERED_ARRAY)
    (hsc1 : sc1 = USBD_HID_Digital_IO_Set_Changes g live buff cand seq0)
    (hr1 : r1 = USBD_HID_Digital_IO_SwitchPorts sc1.1 sc1.2)
    (hsc2 : sc2 = USBD_HID_Digital_IO_Set_Changes g r1.live buff sc1.1 r1.seq) :
    (∀ p : Fin DIGITAL_MAX_PORT_NUM,
      (sc2.1.ports p).change_io = UNCHANGED ∧ (sc2.1.ports p).change_pin = UNCHANGED) ∧
    sc2.2.head_idx = 0 ∧ sc2.2.tail_idx = DIGITAL_MAX_PORT_NUM - 1 ∧
    (USBD_HID_Digital_IO_SwitchPorts sc2.1 sc2.2).setups = [] := by
  subst hsc1
  subst hr1
  subst hsc2
  have hfirst : ∀ p : Fin DIGITAL_MAX_PORT_NUM,
      (USBD_HID_Digital_IO_Set_Changes g live buff cand seq0).1.ports p =
      stepPortRT g (live.ports p) (cand.ports p) p (buff p) :=
    fun p => setLoop_fst_mem g live buff _ (List.nodup_finRange _) _ p (List.mem_finRange p)
  have hlive1 : ∀ p : Fin DIGITAL_MAX_PORT_NUM,
      (USBD_HID_Digital_IO_SwitchPorts
          (USBD_HID_Digital_IO_Set_Changes g live buff cand seq0).1
          (USBD_HID_Digital_IO_Set_Changes g live buff cand seq0).2).live.ports p =
      clearFlagsPort (stepPortRT g (live.ports p) (cand.ports p) p (buff p)) := by
    intro p
    show clearFlagsPort ((USBD_HID_Digital_IO_Set_Changes g live buff cand seq0).1.ports p) = _
    rw [hfirst p]
  have hsecond : ∀ p : Fin DIGITAL_MAX_PORT_NUM,
      (USBD_HID_Digital_IO_Set_Changes g
        (USBD_HID_Digital_IO_SwitchPorts
          (USBD_HID_Digital_IO_Set_Changes g live buff cand seq0).1
          (USBD_HID_Digital_IO_Set_Changes g live buff cand seq0).2).live buff
        (USBD_HID_Digital_IO_Set_Changes g live buff cand seq0).1
        (USBD_HID_Digital_IO_SwitchPorts
          (USBD_HID_Digital_IO_Set_Changes g live buff cand seq0).1
          (USBD_HID_Digital_IO_Set_Changes g live buff cand seq0).2).seq).1.ports p =
      stepPortRT g
        (clearFlagsPort (stepPortRT g (live.ports p) (cand.ports p) p (buff p)))
        (stepPortRT g (live.ports p) (cand.ports p) p (buff p)) p (buff p) := by
    intro p
    have step2 := setLoop_fst_mem g
      (USBD_HID_Digital_IO_SwitchPorts
        (USBD_HID_Digital_IO_Set_Changes g live buff cand seq0).1
        (USBD_HID_Digital_IO_Set_Changes g live buff cand seq0).2).live buff
      (List.finRange DIGITAL_MAX_PORT_NUM) (List.nodup_finRange _)
      ((USBD_HID_Digital_IO_Set_Changes g live buff cand seq0).1,
       (USBD_HID_Digital_IO_SwitchPorts
        (USBD_HID_Digital_IO_Set_Changes g live buff cand seq0).1
        (USBD_HID_Digital_IO_Set_Changes g live buff cand seq0).2).seq) p
      (List.mem_finRange p)
    rw [hlive1 p, hfirst p] at step2
    exact step2
  have hnone : ∀ p : Fin DIGITAL_MAX_PORT_NUM,
      pushKind ((USBD_HID_Digital_IO_SwitchPorts
          (USBD_HID_Digital_IO_Set_Changes g live buff cand seq0).1
          (USBD_HID_Digital_IO_Set_Changes g live buff cand seq0).2).live.ports p)
        (buff p) = none := by
    intro p
    rw [hlive1 p]
    exact (stepPortRT_idem g (live.ports p) (cand.ports p) p (buff p)).2.2
  have hseq2 : (USBD_HID_Digital_IO_Set_Changes g
      (USBD_HID_Digital_IO_SwitchPorts
        (USBD_HID_Digital_IO_Set_Changes g live buff cand seq0).1
        (USBD_HID_Digital_IO_Set_Changes g live buff cand seq0).2).live buff
      (USBD_HID_Digital_IO_Set_Changes g live buff cand seq0).1
      (USBD_HID_Digital_IO_SwitchPorts
        (USBD_HID_Digital_IO_Set_Changes g live buff cand seq0).1
        (USBD_HID_Digital_IO_Set_Changes g live buff cand seq0).2).seq).2 =
      (USBD_HID_Digital_IO_SwitchPorts
        (USBD_HID_Digital_IO_Set_Changes g live buff cand seq0).1
        (USBD_HID_Digital_IO_Set_Changes g live buff cand seq0).2).seq := by
    unfold USBD_HID_Digital_IO_Set_Changes
    rw [setLoop_snd]
    exact pushRun_none _ buff _ _ fun p _ => hnone p
  refine ⟨?_, ?_, ?_, ?_⟩
  · intro p
    rw [hsecond p]
    exact ⟨(stepPortRT_idem g (live.ports p) (cand.ports p) p (buff p)).1,
      (stepPortRT_idem g (live.ports p) (cand.ports p) p (buff p)).2.1⟩
  · rw [hseq2]; rfl
  · rw [hseq2]; rfl
  · show drainHead _ _ ++ drainTail _ _ = []
    rw [hseq2]
    have hh : (USBD_HID_Digital_IO_SwitchPorts
        (USBD_HID_Digital_IO_Set_Changes g live buff cand seq0).1
        (USBD_HID_Digital_IO_Set_Changes g live buff cand seq0).2).seq.head_idx = 0 := rfl
    have ht : (USBD_HID_Digital_IO_SwitchPorts
        (USBD_HID_Digital_IO_Set_Changes g live buff cand seq0).1
        (USBD_HID_Digital_IO_Set_Changes g live buff cand seq0).2).seq.tail_idx = 5 := rfl
    rw [hh, ht]
    rw [drainHead]
    have hdt : drainTailLen 5 = 0 := rfl
    unfold drainTail
    rw [hdt]
    rfl

theorem portSettings_val (st : HID_DIGITAL_IO_TypeDef) (p : Fin DIGITAL_MAX_PORT_NUM) :
    portSettings st p.val = (st.ports p).gpio_settings := by
  unfold portSettings
  rw [dif_pos p.isLt]

/-- Claim C9: after every commit, every port's `change_pin` and
`change_io` flags in the live state are cleared and the switch sequencer
is empty again (`head_idx = 0`, `tail_idx = DIGITAL_MAX_PORT_NUM - 1`),
for every candidate state and every sequencer content. -/
theorem C9_commit_clears_flags_and_sequencer (cand : HID_DIGITAL_IO_TypeDef)
    (seq : ORDERED_ARRAY) :
    (∀ p : Fin DIGITAL_MAX_PORT_NUM,
      ((USBD_HID_Digital_IO_SwitchPorts cand seq).live.ports p).change_pin = UNCHANGED ∧
      ((USBD_HID_Digital_IO_SwitchPorts cand seq).live.ports p).change_io = UNCHANGED) ∧
    (USBD_HID_Digital_IO_SwitchPorts cand seq).seq.head_idx = 0 ∧
    (USBD_HID_Digital_IO_SwitchPorts cand seq).seq.tail_idx = DIGITAL_MAX_PORT_NUM - 1 :=
  ⟨fun _ => ⟨rfl, rfl⟩, rfl, rfl⟩

/-- Claim C7: a command byte with bit 0 clear (inactive port) reverts the
port's candidate entry to the default configuration — Input mode,
PullDown, all pins Low, the pin mask recomputed as the OR of the port's
fixed physical pin identifiers, both change flags cleared — pushes
nothing into the switch sequencer, and the port's number never appears in
the commit's hardware-setup trace. -/
theorem C7_inactive_port_default (g : Fin DIGITAL_MAX_PORT_NUM → Fin DIGITAL_MAX_PIN_NUM → Nat)
    (live cand : HID_DIGITAL_IO_TypeDef) (buff : Fin DIGITAL_MAX_PORT_NUM → Nat)
    (seq : ORDERED_ARRAY) (arr0 : Nat → Nat) (p : Fin DIGITAL_MAX_PORT_NUM)
    (h0 : buff p &&& 0x01 = 0) :
    ((USBD_HID_Digital_IO_Set_Changes g live buff cand seq).1.ports p).gpio_settings.Mode
        = GPIO_MODE_INPUT ∧
    ((USBD_HID_Digital_IO_Set_Changes g live buff cand seq).1.ports p).gpio_settings.Pull
        = GPIO_PULLDOWN ∧
    ((USBD_HID_Digital_IO_Set_Changes g live buff cand seq).1.ports p).gpio_settings.Pin
        = defaultPinMask g p ∧
    (∀ k : Fin DIGITAL_MAX_PIN_NUM,
      ((USBD_HID_Digital_IO_Set_Changes g live buff cand seq).1.ports p).pins k
        = DIGITAL_PIN_LOW) ∧
    ((USBD_HID_Digital_IO_Set_Changes g live buff cand seq).1.ports p).change_io = UNCHANGED ∧
    ((USBD_HID_Digital_IO_Set_Changes g live buff cand seq).1.ports p).change_pin = UNCHANGED ∧
    stepPort g (live.ports p) (cand.ports p) p (buff p) seq = (defaultPort g p, seq) ∧
    pushKind (live.ports p) (buff p) = none ∧
    p.val ∉ (USBD_HID_Digital_IO_SwitchPorts
        (USBD_HID_Digital_IO_Set_Changes g live buff cand
          { array := arr0, head_idx := 0, tail_idx := DIGITAL_MAX_PORT_NUM - 1 }).1
        (USBD_HID_Digital_IO_Set_Changes g live buff cand
          { array := arr0, head_idx := 0, tail_idx := DIGITAL_MAX_PORT_NUM - 1 }).2).setups := by
  have h1 : ¬buff p &&& 0x01 = CHANGED := by rw [h0]; decide
  have hfinal : (USBD_HID_Digital_IO_Set_Changes g live buff cand seq).1.ports p =
      stepPortRT g (live.ports p) (cand.ports p) p (buff p) :=
    setLoop_fst_mem g live buff _ (List.nodup_finRange _) _ p (List.mem_finRange p)
  have hd := stepPortRT_inactive g (live.ports p) (cand.ports p) p (buff p) h1
  have hpk : pushKind (live.ports p) (buff p) = none := by
    unfold pushKind
    rw [if_neg h1]
  refine ⟨?_, ?_, ?_, ?_, ?_, ?_, ?_, hpk, ?_⟩
  · rw [hfinal, hd]; rfl
  · rw [hfinal, hd]; rfl
  · rw [hfinal, hd]; rfl
  · intro k; rw [hfinal, hd]; rfl
  · rw [hfinal, hd]; rfl
  · rw [hfinal, hd]; rfl
  · unfold stepPort
    rw [if_neg h1]
  · intro hmem
    obtain ⟨hs, ts, hset, hiff⟩ := cycle_setups_spec g live buff cand arr0
    have hmem2 : p.val ∈ (hs.map Fin.val).reverse ++ (ts.map Fin.val).reverse := by
      rw [← hset]; exact hmem
    rcases List.mem_append.mp hmem2 with hin | hin
    · rw [List.mem_reverse, List.mem_map] at hin
      obtain ⟨q, hq, hqv⟩ := hin
      have hqp : q = p := Fin.val_injective hqv
      subst hqp
      have := ((hiff q).1).mp hq
      rw [hpk] at this
      cases this
    · rw [List.mem_reverse, List.mem_map] at hin
      obtain ⟨q, hq, hqv⟩ := hin
      have hqp : q = p := Fin.val_injective hqv
      subst hqp
      have := ((hiff q).2).mp hq
      rw [hpk] at this
      cases this

/-- Claim C8: the per-port decoder is total over every byte value — in
particular the pull field: pull bits 00 decode to NoPull, 01 to PullDown,
10 to PullUp, and the reserved pattern 11 falls back to NoPull instead of
failing, for every active command byte. -/
theorem C8_pull_decoder_total (g : Fin DIGITAL_MAX_PORT_NUM → Fin DIGITAL_MAX_PIN_NUM → Nat)
    (live cand : HID_DIGITAL_IO_TypeDef) (buff : Fin DIGITAL_MAX_PORT_NUM → Nat)
    (seq : ORDERED_ARRAY) (p : Fin DIGITAL_MAX_PORT_NUM)
    (h1 : buff p &&& 0x01 = CHANGED) :
    (buff p &&& 0x0C = 0 →
      ((USBD_HID_Digital_IO_Set_Changes g live buff cand seq).1.ports p).gpio_settings.Pull
        = GPIO_NOPULL) ∧
    (buff p &&& 0x0C = 4 →
      ((USBD_HID_Digital_IO_Set_Changes g live buff cand seq).1.ports p).gpio_settings.Pull
        = GPIO_PULLDOWN) ∧
    (buff p &&& 0x0C = 8 →
      ((USBD_HID_Digital_IO_Set_Changes g live buff cand seq).1.ports p).gpio_settings.Pull
        = GPIO_PULLUP) ∧
    (buff p &&& 0x0C = 12 →
      ((USBD_HID_Digital_IO_Set_Changes g live buff cand seq).1.ports p).gpio_settings.Pull
        = GPIO_NOPULL) := by
  have hfinal : (USBD_HID_Digital_IO_Set_Changes g live buff cand seq).1.ports p =
      stepPortRT g (live.ports p) (cand.ports p) p (buff p) :=
    setLoop_fst_mem g live buff _ (List.nodup_finRange _) _ p (List.mem_finRange p)
  have hpull := stepPortRT_pull_active g (live.ports p) (cand.ports p) p (buff p) h1
  refine ⟨?_, ?_, ?_, ?_⟩ <;> intro hbits <;> rw [hfinal, hpull, hbits] <;> norm_num

/-- Claim C10: the transition computation never writes the pin-mask field
of an active port's candidate entry: after `Set_Changes` the candidate's
`gpio_settings.Pin` still holds its pre-cycle value, the committed live
state keeps that value, and the settings handed to `HAL_GPIO_Init` for
any sequencer slot holding this port carry exactly that pre-existing pin
mask, not one derived from the current command. -/
theorem C10_active_port_pin_mask_frame
    (g : Fin DIGITAL_MAX_PORT_NUM → Fin DIGITAL_MAX_PIN_NUM → Nat)
    (live cand : HID_DIGITAL_IO_TypeDef) (buff : Fin DIGITAL_MAX_PORT_NUM → Nat)
    (seq : ORDERED_ARRAY) (p : Fin DIGITAL_MAX_PORT_NUM)
    (h1 : buff p &&& 0x01 = CHANGED) :
    ((USBD_HID_Digital_IO_Set_Changes g live buff cand seq).1.ports p).gpio_settings.Pin
        = (cand.ports p).gpio_settings.Pin ∧
    ((USBD_HID_Digital_IO_SwitchPorts
        (USBD_HID_Digital_IO_Set_Changes g live buff cand seq).1
        (USBD_HID_Digital_IO_Set_Changes g live buff cand seq).2).live.ports p).gpio_settings.Pin
        = (cand.ports p).gpio_settings.Pin ∧
    (∀ idx : Nat,
      (USBD_HID_Digital_IO_Set_Changes g live buff cand seq).2.array idx = p.val →
      (USBD_HID_Digital_IO_GPIO_Setup
        (USBD_HID_Digital_IO_SwitchPorts
          (USBD_HID_Digital_IO_Set_Changes g live buff cand seq).1
          (USBD_HID_Digital_IO_Set_Changes g live buff cand seq).2).live
        (USBD_HID_Digital_IO_Set_Changes g live buff cand seq).2 idx).Pin
        = (cand.ports p).gpio_settings.Pin) := by
  have hfinal : (USBD_HID_Digital_IO_Set_Changes g live buff cand seq).1.ports p =
      stepPortRT g (live.ports p) (cand.ports p) p (buff p) :=
    setLoop_fst_mem g live buff _ (List.nodup_finRange _) _ p (List.mem_finRange p)
  have hpin : ((USBD_HID_Digital_IO_Set_Changes g live buff cand seq).1.ports p).gpio_settings.Pin
      = (cand.ports p).gpio_settings.Pin := by
    rw [hfinal]
    exact stepPortRT_pin_active g (live.ports p) (cand.ports p) p (buff p) h1
  have hlive : ((USBD_HID_Digital_IO_SwitchPorts
      (USBD_HID_Digital_IO_Set_Changes g live buff cand seq).1
      (USBD_HID_Digital_IO_Set_Changes g live buff cand seq).2).live.ports p).gpio_settings.Pin
      = (cand.ports p).gpio_settings.Pin := by
    show (clearFlagsPort
      ((USBD_HID_Digital_IO_Set_Changes g live buff cand seq).1.ports p)).gpio_settings.Pin = _
    exact hpin
  refine ⟨hpin, hlive, ?_⟩
  intro idx hidx
  unfold USBD_HID_Digital_IO_GPIO_Setup
  rw [hidx, portSettings_val]
  exact hlive

theorem createReport_congr (st1 st2 : HID_DIGITAL_IO_TypeDef)
    (h : ∀ p : Fin DIGITAL_MAX_PORT_NUM,
      (st1.ports p).gpio_settings.Mode = (st2.ports p).gpio_settings.Mode ∧
      (st1.ports p).pins = (st2.ports p).pins) :
    USBD_HID_Digital_IO_CreateReport st1 = USBD_HID_Digital_IO_CreateReport st2 := by
  unfold USBD_HID_Digital_IO_CreateReport
  suffices h2 : ∀ (ps : List (Fin DIGITAL_MAX_PORT_NUM)) (acc : Report4 × Nat × Nat),
      List.foldl (reportStep st1) acc ps = List.foldl (reportStep st2) acc ps by
    rw [h2]
  intro ps
  induction ps with
  | nil => intro acc; rfl
  | cons p ps ih =>
      intro acc
      rw [List.foldl_cons, List.foldl_cons]
      have hstep : reportStep st1 acc p = reportStep st2 acc p := by
        unfold reportStep
        rw [(h p).1, (h p).2]
      rw [hstep, ih]

/-- Claim C5 (amended): the post-commit report is a function of the
command buffer, the pre-commit live state, and additionally the pre-cycle
candidate pin values of every port commanded active with mode Input (the
transition computation leaves those candidate pins untouched and the
commit publishes them into the live state the report encodes): two runs
from equal live states receiving equal buffers whose prior candidate
states agree on the pins of each active-Input port produce equal
reports. -/
theorem C5_amended_report_determinism
    (g : Fin DIGITAL_MAX_PORT_NUM → Fin DIGITAL_MAX_PIN_NUM → Nat)
    (live c1 c2 : HID_DIGITAL_IO_TypeDef) (buff : Fin DIGITAL_MAX_PORT_NUM → Nat)
    (s1 s2 : ORDERED_ARRAY)
    (hagree : ∀ p : Fin DIGITAL_MAX_PORT_NUM,
      buff p &&& 0x01 = CHANGED → ¬buff p &&& 0x02 = OUTPUT →
      (c1.ports p).pins = (c2.ports p).pins) :
    USBD_HID_Digital_IO_CreateReport
      (USBD_HID_Digital_IO_SwitchPorts
        (USBD_HID_Digital_IO_Set_Changes g live buff c1 s1).1
        (USBD_HID_Digital_IO_Set_Changes g live buff c1 s1).2).live =
    USBD_HID_Digital_IO_CreateReport
      (USBD_HID_Digital_IO_SwitchPorts
        (USBD_HID_Digital_IO_Set_Changes g live buff c2 s2).1
        (USBD_HID_Digital_IO_Set_Changes g live buff c2 s2).2).live := by
  apply createReport_congr
  intro p
  have hf1 : (USBD_HID_Digital_IO_Set_Changes g live buff c1 s1).1.ports p =
      stepPortRT g (live.ports p) (c1.ports p) p (buff p) :=
    setLoop_fst_mem g live buff _ (List.nodup_finRange _) _ p (List.mem_finRange p)
  have hf2 : (USBD_HID_Digital_IO_Set_Changes g live buff c2 s2).1.ports p =
      stepPortRT g (live.ports p) (c2.ports p) p (buff p) :=
    setLoop_fst_mem g live buff _ (List.nodup_finRange _) _ p (List.mem_finRange p)
  have hl1 : (USBD_HID_Digital_IO_SwitchPorts
      (USBD_HID_Digital_IO_Set_Changes g live buff c1 s1).1
      (USBD_HID_Digital_IO_Set_Changes g live buff c1 s1).2).live.ports p =
      clearFlagsPort (stepPortRT g (live.ports p) (c1.ports p) p (buff p)) := by
    show clearFlagsPort ((USBD_HID_Digital_IO_Set_Changes g live buff c1 s1).1.ports p) = _
    rw [hf1]
  have hl2 : (USBD_HID_Digital_IO_SwitchPorts
      (USBD_HID_Digital_IO_Set_Changes g live buff c2 s2).1
      (USBD_HID_Digital_IO_Set_Changes g live buff c2 s2).2).live.ports p =
      clearFlagsPort (stepPortRT g (live.ports p) (c2.ports p) p (buff p)) := by
    show clearFlagsPort ((USBD_HID_Digital_IO_Set_Changes g live buff c2 s2).1.ports p) = _
    rw [hf2]
  rw [hl1, hl2]
  show (stepPortRT g (live.ports p) (c1.ports p) p (buff p)).gpio_settings.Mode =
      (stepPortRT g (live.ports p) (c2.ports p) p (buff p)).gpio_settings.Mode ∧
    (stepPortRT g (live.ports p) (c1.ports p) p (buff p)).pins =
      (stepPortRT g (live.ports p) (c2.ports p) p (buff p)).pins
  by_cases h1 : buff p &&& 0x01 = CHANGED
  · constructor
    · rw [stepPortRT_mode_active g _ _ p _ h1, stepPortRT_mode_active g _ _ p _ h1]
    · by_cases hm : buff p &&& 0x02 = OUTPUT
      · funext k
        rw [stepPortRT_pins_output g _ _ p _ h1 hm k,
          stepPortRT_pins_output g _ _ p _ h1 hm k]
      · rw [stepPortRT_pins_input g _ _ p _ h1 hm,
          stepPortRT_pins_input g _ _ p _ h1 hm]
        exact hagree p h1 hm
  · rw [stepPortRT_inactive g _ _ p _ h1, stepPortRT_inactive g _ _ p _ h1]
    exact ⟨rfl, rfl⟩

/-- Byte selector for the 4-byte report (index 0..3). -/
def reportByte (r : Report4) (n : Nat) : Nat :=
  match n with
  | 0 => r.b0
  | 1 => r.b1
  | 2 => r.b2
  | _ => r.b3

theorem mode_byte_bits (B m0 m1 m2 m3 m4 m5 : Nat)
    (hB : B = byteAdd (byteAdd (byteAdd (byteAdd (byteAdd (byteAdd 0
      (m0 <<< 0)) (m1 <<< 1)) (m2 <<< 2)) (m3 <<< 3)) (m4 <<< 4)) (m5 <<< 5))
    (h0 : m0 ≤ 1) (h1 : m1 ≤ 1) (h2 : m2 ≤ 1) (h3 : m3 ≤ 1) (h4 : m4 ≤ 1) (h5 : m5 ≤ 1) :
    (B >>> 0) % 2 = m0 ∧ (B >>> 1) % 2 = m1 ∧ (B >>> 2) % 2 = m2 ∧
    (B >>> 3) % 2 = m3 ∧ (B >>> 4) % 2 = m4 ∧ (B >>> 5) % 2 = m5 ∧ B >>> 6 = 0 := by
  subst hB
  simp only [byteAdd, Nat.shiftLeft_eq, Nat.shiftRight_eq_div_pow]
  norm_num
  omega

theorem pin_byte_bits (B a0 a1 a2 a3 c0 c1 c2 c3 : Nat)
    (hB : B = byteAdd (byteAdd (byteAdd (byteAdd (byteAdd (byteAdd (byteAdd (byteAdd 0
      (a0 <<< 0)) (a1 <<< 1)) (a2 <<< 2)) (a3 <<< 3))
      (c0 <<< 4)) (c1 <<< 5)) (c2 <<< 6)) (c3 <<< 7))
    (ha0 : a0 ≤ 1) (ha1 : a1 ≤ 1) (ha2 : a2 ≤ 1) (ha3 : a3 ≤ 1)
    (hc0 : c0 ≤ 1) (hc1 : c1 ≤ 1) (hc2 : c2 ≤ 1) (hc3 : c3 ≤ 1) :
    (B >>> 0) % 2 = a0 ∧ (B >>> 1) % 2 = a1 ∧ (B >>> 2) % 2 = a2 ∧ (B >>> 3) % 2 = a3 ∧
    (B >>> 4) % 2 = c0 ∧ (B >>> 5) % 2 = c1 ∧ (B >>> 6) % 2 = c2 ∧ (B >>> 7) % 2 = c3 := by
  subst hB
  simp only [byteAdd, Nat.shiftLeft_eq, Nat.shiftRight_eq_div_pow]
  norm_num
  omega

/-- Claim C3: for every well-formed live state, report byte 0 carries the
six live mode bits (bit `i` = mode of port `i`, 0 = Input, 1 = Output)
with the unused high bits zero, and report byte `1 + k` carries port
`2k`'s four pin values in its low nibble and port `2k+1`'s in its high
nibble, one bit per pin. -/
theorem C3_report_layout (st : HID_DIGITAL_IO_TypeDef) (hwf : DigitalWF st) :
    (∀ i : Fin DIGITAL_MAX_PORT_NUM,
      ((USBD_HID_Digital_IO_CreateReport st).b0 >>> i.val) % 2 =
        (st.ports i).gpio_settings.Mode) ∧
    (USBD_HID_Digital_IO_CreateReport st).b0 >>> 6 = 0 ∧
    (∀ k : Fin 3, ∀ j : Fin DIGITAL_MAX_PIN_NUM,
      ((reportByte (USBD_HID_Digital_IO_CreateReport st) (1 + k.val)) >>> j.val) % 2 =
        (st.ports ⟨2 * k.val, by simp only [DIGITAL_MAX_PORT_NUM]; omega⟩).pins j ∧
      ((reportByte (USBD_HID_Digital_IO_CreateReport st) (1 + k.val)) >>> (4 + j.val)) % 2 =
        (st.ports ⟨2 * k.val + 1, by simp only [DIGITAL_MAX_PORT_NUM]; omega⟩).pins j) := by
  have hb0 : (USBD_HID_Digital_IO_CreateReport st).b0 =
      byteAdd (byteAdd (byteAdd (byteAdd (byteAdd (byteAdd 0
        ((st.ports 0).gpio_settings.Mode <<< 0))
        ((st.ports 1).gpio_settings.Mode <<< 1))
        ((st.ports 2).gpio_settings.Mode <<< 2))
        ((st.ports 3).gpio_settings.Mode <<< 3))
        ((st.ports 4).gpio_settings.Mode <<< 4))
        ((st.ports 5).gpio_settings.Mode <<< 5) := rfl
  have hb1 : (USBD_HID_Digital_IO_CreateReport st).b1 =
      byteAdd (byteAdd (byteAdd (byteAdd (byteAdd (byteAdd (byteAdd (byteAdd 0
        ((st.ports 0).pins 0 <<< 0)) ((st.ports 0).pins 1 <<< 1))
        ((st.ports 0).pins 2 <<< 2)) ((st.ports 0).pins 3 <<< 3))
        ((st.ports 1).pins 0 <<< 4)) ((st.ports 1).pins 1 <<< 5))
        ((st.ports 1).pins 2 <<< 6)) ((st.ports 1).pins 3 <<< 7) := rfl
  have hb2 : (USBD_HID_Digital_IO_CreateReport st).b2 =
      byteAdd (byteAdd (byteAdd (byteAdd (byteAdd (byteAdd (byteAdd (byteAdd 0
        ((st.ports 2).pins 0 <<< 0)) ((st.ports 2).pins 1 <<< 1))
        ((st.ports 2).pins 2 <<< 2)) ((st.ports 2).pins 3 <<< 3))
        ((st.ports 3).pins 0 <<< 4)) ((st.ports 3).pins 1 <<< 5))
        ((st.ports 3).pins 2 <<< 6)) ((st.ports 3).pins 3 <<< 7) := rfl
  have hb3 : (USBD_HID_Digital_IO_CreateReport st).b3 =
      byteAdd (byteAdd (byteAdd (byteAdd (byteAdd (byteAdd (byteAdd (byteAdd 0
        ((st.ports 4).pins 0 <<< 0)) ((st.ports 4).pins 1 <<< 1))
        ((st.ports 4).pins 2 <<< 2)) ((st.ports 4).pins 3 <<< 3))
        ((st.ports 5).pins 0 <<< 4)) ((st.ports 5).pins 1 <<< 5))
        ((st.ports 5).pins 2 <<< 6)) ((st.ports 5).pins 3 <<< 7) := rfl
  have hM := mode_byte_bits _ _ _ _ _ _ _ hb0
    (hwf 0).1 (hwf 1).1 (hwf 2).1 (hwf 3).1 (hwf 4).1 (hwf 5).1
  have hB1 := pin_byte_bits _ _ _ _ _ _ _ _ _ hb1
    ((hwf 0).2 0) ((hwf 0).2 1) ((hwf 0).2 2) ((hwf 0).2 3)
    ((hwf 1).2 0) ((hwf 1).2 1) ((hwf 1).2 2) ((hwf 1).2 3)
  have hB2 := pin_byte_bits _ _ _ _ _ _ _ _ _ hb2
    ((hwf 2).2 0) ((hwf 2).2 1) ((hwf 2).2 2) ((hwf 2).2 3)
    ((hwf 3).2 0) ((hwf 3).2 1) ((hwf 3).2 2) ((hwf 3).2 3)
  have hB3 := pin_byte_bits _ _ _ _ _ _ _ _ _ hb3
    ((hwf 4).2 0) ((hwf 4).2 1) ((hwf 4).2 2) ((hwf 4).2 3)
    ((hwf 5).2 0) ((hwf 5).2 1) ((hwf 5).2 2) ((hwf 5).2 3)
  refine ⟨?_, hM.2.2.2.2.2.2, ?_⟩
  · intro i
    fin_cases i
    exacts [hM.1, hM.2.1, hM.2.2.1, hM.2.2.2.1, hM.2.2.2.2.1, hM.2.2.2.2.2.1]
  · intro k j
    fin_cases k <;> fin_cases j
    exacts [⟨hB1.1, hB1.2.2.2.2.1⟩, ⟨hB1.2.1, hB1.2.2.2.2.2.1⟩,
      ⟨hB1.2.2.1, hB1.2.2.2.2.2.2.1⟩, ⟨hB1.2.2.2.1, hB1.2.2.2.2.2.2.2⟩,
      ⟨hB2.1, hB2.2.2.2.2.1⟩, ⟨hB2.2.1, hB2.2.2.2.2.2.1⟩,
      ⟨hB2.2.2.1, hB2.2.2.2.2.2.2.1⟩, ⟨hB2.2.2.2.1, hB2.2.2.2.2.2.2.2⟩,
      ⟨hB3.1, hB3.2.2.2.2.1⟩, ⟨hB3.2.1, hB3.2.2.2.2.2.1⟩,
      ⟨hB3.2.2.1, hB3.2.2.2.2.2.2.1⟩, ⟨hB3.2.2.2.1, hB3.2.2.2.2.2.2.2⟩]

/-! Concrete instances used by the closed evaluation theorems and the
witnesses.  The physical pin table uses STM32-style one-hot masks. -/

/-- Concrete physical-pin identifier table (one-hot masks). -/
def gpio_digital_pin_demo : Fin DIGITAL_MAX_PORT_NUM → Fin DIGITAL_MAX_PIN_NUM → Nat :=
  fun p k => 2 ^ (4 * p.val + k.val)

/-- Freshly initialized live state. -/
def demo_live : HID_DIGITAL_IO_TypeDef := USBD_HID_Digital_IO_Init gpio_digital_pin_demo

/-- Sequencer in its reset position. -/
def demo_seq : ORDERED_ARRAY :=
  { array := fun _ => 0, head_idx := 0, tail_idx := DIGITAL_MAX_PORT_NUM - 1 }

/-- Command: port 0 active/Output/NoPull, port 1 active/Input/NoPull,
other ports inactive — both port 0 and port 1 change their settings. -/
def demo_buff : Fin DIGITAL_MAX_PORT_NUM → Nat := fun p =>
  if p = 0 then 3 else if p = 1 then 1 else 0

/-- First transition computation on `demo_buff`. -/
def demo_sc1 : HID_DIGITAL_IO_TypeDef × ORDERED_ARRAY :=
  USBD_HID_Digital_IO_Set_Changes gpio_digital_pin_demo demo_live demo_buff demo_live demo_seq

/-- First commit. -/
def demo_r1 : SwitchPortsResult := USBD_HID_Digital_IO_SwitchPorts demo_sc1.1 demo_sc1.2

/-- Second transition computation on the same buffer after the commit. -/
def demo_sc2 : HID_DIGITAL_IO_TypeDef × ORDERED_ARRAY :=
  USBD_HID_Digital_IO_Set_Changes gpio_digital_pin_demo demo_r1.live demo_buff
    demo_sc1.1 demo_r1.seq

/-- Live state for the `change_pin` evaluation: port 0 is Output/NoPull
with pin 0 High, everything else default. -/
def demo_live_c2 : HID_DIGITAL_IO_TypeDef :=
  { port_enabled_size := DIGITAL_MAX_PORT_NUM
    ports := fun p =>
      if p = 0 then
        { gpio_settings := { Mode := GPIO_MODE_OUTPUT_PP, Pull := GPIO_NOPULL, Pin := 15 }
          pin_enabled_size := DIGITAL_MAX_PIN_NUM
          change_io := UNCHANGED
          change_pin := UNCHANGED
          pins := fun k => if k = 0 then 1 else 0 }
      else defaultPort gpio_digital_pin_demo p }

/-- Command for the `change_pin` evaluation: port 0 active/Output/NoPull
with all commanded pins Low (so only pin 0 differs from the live state,
and mode/pull match the live settings). -/
def demo_buff_c2 : Fin DIGITAL_MAX_PORT_NUM → Nat := fun p => if p = 0 then 3 else 0

/-- Claim C2 evaluated at its failing input (code bug): decoded pin 0
(Low) differs from the live pin 0 (High) and `change_io` is false, so per
the claim `change_pin` must be true; the code computes `change_pin` =
false, because the loop in lines 261-281 reassigns the flag on every pin
iteration and only the last pin's comparison survives. -/
theorem C2_change_pin_last_pin_bug :
    ((USBD_HID_Digital_IO_Set_Changes gpio_digital_pin_demo demo_live_c2 demo_buff_c2
        demo_live_c2 demo_seq).1.ports 0).change_io = UNCHANGED ∧
    ((USBD_HID_Digital_IO_Set_Changes gpio_digital_pin_demo demo_live_c2 demo_buff_c2
        demo_live_c2 demo_seq).1.ports 0).pins 0 = 0 ∧
    (demo_live_c2.ports 0).pins 0 = 1 ∧
    ((USBD_HID_Digital_IO_Set_Changes gpio_digital_pin_demo demo_live_c2 demo_buff_c2
        demo_live_c2 demo_seq).1.ports 0).change_pin = UNCHANGED := by
  refine ⟨?_, ?_, ?_, ?_⟩ <;> rfl

/-- Claim C4 evaluated at its failing input (code bug): `Set_Changes`
performs no length validation — on a 5-byte buffer (PORT_COUNT = 6) the
indexed access for port 5 falls outside the buffer (an out-of-bounds read,
undefined behavior in C, modeled as failure of the instrumented decoder),
and no MalformedInput condition is reported anywhere: the C function
returns void and has no error path at all. -/
theorem C4_no_length_check :
    USBD_HID_Digital_IO_Set_Changes_checked gpio_digital_pin_demo demo_live
      [0, 0, 0, 0, 0] demo_live demo_seq = none := rfl

/-- Candidate state differing from `demo_live` only in port 0's pin 0. -/
def demo_cand_b : HID_DIGITAL_IO_TypeDef :=
  { port_enabled_size := DIGITAL_MAX_PORT_NUM
    ports := fun p =>
      if p = 0 then
        { defaultPort gpio_digital_pin_demo p with pins := fun k => if k = 0 then 1 else 0 }
      else defaultPort gpio_digital_pin_demo p }

/-- Command: port 0 active/Input/NoPull, all other ports inactive. -/
def demo_buff_c5 : Fin DIGITAL_MAX_PORT_NUM → Nat := fun p => if p = 0 then 1 else 0

/-- Claim C5 counterexample: two cycles from the same live state and the
same command buffer, differing only in what the candidate buffer held
before the cycle (port 0's pin 0), produce different reports — the
active-Input branch never writes the candidate pins, and the commit
publishes the stale values into the live state that the report encodes. -/
theorem C5_report_depends_on_stale_candidate :
    USBD_HID_Digital_IO_CreateReport
      (USBD_HID_Digital_IO_SwitchPorts
        (USBD_HID_Digital_IO_Set_Changes gpio_digital_pin_demo demo_live demo_buff_c5
          demo_live demo_seq).1
        (USBD_HID_Digital_IO_Set_Changes gpio_digital_pin_demo demo_live demo_buff_c5
          demo_live demo_seq).2).live ≠
    USBD_HID_Digital_IO_CreateReport
      (USBD_HID_Digital_IO_SwitchPorts
        (USBD_HID_Digital_IO_Set_Changes gpio_digital_pin_demo demo_live demo_buff_c5
          demo_cand_b demo_seq).1
        (USBD_HID_Digital_IO_Set_Changes gpio_digital_pin_demo demo_live demo_buff_c5
          demo_cand_b demo_seq).2).live := by
  intro h
  have hA : (USBD_HID_Digital_IO_CreateReport
      (USBD_HID_Digital_IO_SwitchPorts
        (USBD_HID_Digital_IO_Set_Changes gpio_digital_pin_demo demo_live demo_buff_c5
          demo_live demo_seq).1
        (USBD_HID_Digital_IO_Set_Changes gpio_digital_pin_demo demo_live demo_buff_c5
          demo_live demo_seq).2).live).b1 = 0 := rfl
  have hB : (USBD_HID_Digital_IO_CreateReport
      (USBD_HID_Digital_IO_SwitchPorts
        (USBD_HID_Digital_IO_Set_Changes gpio_digital_pin_demo demo_live demo_buff_c5
          demo_cand_b demo_seq).1
        (USBD_HID_Digital_IO_Set_Changes gpio_digital_pin_demo demo_live demo_buff_c5
          demo_cand_b demo_seq).2).live).b1 = 1 := rfl
  rw [h, hB] at hA
  cases hA

/-- Command byte with the reserved pull pattern 11 on port 0 (0x0D =
active, Input, pull bits 11). -/
def demo_buff_c8 : Fin DIGITAL_MAX_PORT_NUM → Nat := fun p => if p = 0 then 13 else 0

theorem C1_two_phase_order_witness :
    ∃ mk dr : List Nat,
      demo_r1.setups = mk ++ dr ∧
      (∀ n ∈ mk, ∃ p : Fin DIGITAL_MAX_PORT_NUM, n = p.val ∧
        (demo_sc1.1.ports p).change_io = CHANGED ∧
        (demo_sc1.1.ports p).gpio_settings.Mode = GPIO_MODE_INPUT) ∧
      (∀ n ∈ dr, ∃ p : Fin DIGITAL_MAX_PORT_NUM, n = p.val ∧
        (demo_sc1.1.ports p).change_io = CHANGED ∧
        (demo_sc1.1.ports p).gpio_settings.Mode = GPIO_MODE_OUTPUT_PP) ∧
      (∀ p : Fin DIGITAL_MAX_PORT_NUM, (demo_sc1.1.ports p).change_io = CHANGED →
        ((demo_sc1.1.ports p).gpio_settings.Mode = GPIO_MODE_INPUT → p.val ∈ mk) ∧
        ((demo_sc1.1.ports p).gpio_settings.Mode = GPIO_MODE_OUTPUT_PP → p.val ∈ dr)) ∧
      (∀ i j, (hi : i < demo_r1.setups.length) → (hj : j < demo_r1.setups.length) →
        portModeAt demo_sc1.1 (demo_r1.setups[i]) = GPIO_MODE_INPUT →
        portModeAt demo_sc1.1 (demo_r1.setups[j]) = GPIO_MODE_OUTPUT_PP →
        i < j) :=
  C1_two_phase_order gpio_digital_pin_demo demo_live demo_live demo_buff (fun _ => 0)
    demo_sc1 demo_r1 rfl rfl

theorem C3_report_layout_witness :
    (∀ i : Fin DIGITAL_MAX_PORT_NUM,
      ((USBD_HID_Digital_IO_CreateReport demo_live_c2).b0 >>> i.val) % 2 =
        (demo_live_c2.ports i).gpio_settings.Mode) ∧
    (USBD_HID_Digital_IO_CreateReport demo_live_c2).b0 >>> 6 = 0 ∧
    (∀ k : Fin 3, ∀ j : Fin DIGITAL_MAX_PIN_NUM,
      ((reportByte (USBD_HID_Digital_IO_CreateReport demo_live_c2) (1 + k.val)) >>> j.val) % 2 =
        (demo_live_c2.ports ⟨2 * k.val, by simp only [DIGITAL_MAX_PORT_NUM]; omega⟩).pins j ∧
      ((reportByte (USBD_HID_Digital_IO_CreateReport demo_live_c2) (1 + k.val)) >>> (4 + j.val)) % 2 =
        (demo_live_c2.ports ⟨2 * k.val + 1, by simp only [DIGITAL_MAX_PORT_NUM]; omega⟩).pins j) :=
  C3_report_layout demo_live_c2 (by decide)

theorem C5_amended_report_determinism_witness :
    USBD_HID_Digital_IO_CreateReport
      (USBD_HID_Digital_IO_SwitchPorts
        (USBD_HID_Digital_IO_Set_Changes gpio_digital_pin_demo demo_live demo_buff_c5
          demo_live demo_seq).1
        (USBD_HID_Digital_IO_Set_Changes gpio_digital_pin_demo demo_live demo_buff_c5
          demo_live demo_seq).2).live =
    USBD_HID_Digital_IO_CreateReport
      (USBD_HID_Digital_IO_SwitchPorts
        (USBD_HID_Digital_IO_Set_Changes gpio_digital_pin_demo demo_live demo_buff_c5
          demo_live demo_seq).1
        (USBD_HID_Digital_IO_Set_Changes gpio_digital_pin_demo demo_live demo_buff_c5
          demo_live demo_seq).2).live :=
  C5_amended_report_determinism gpio_digital_pin_demo demo_live demo_live demo_live
    demo_buff_c5 demo_seq demo_seq (fun _ _ _ => rfl)

theorem C6_second_cycle_idempotent_witness :
    (∀ p : Fin DIGITAL_MAX_PORT_NUM,
      (demo_sc2.1.ports p).change_io = UNCHANGED ∧
      (demo_sc2.1.ports p).change_pin = UNCHANGED) ∧
    demo_sc2.2.head_idx = 0 ∧ demo_sc2.2.tail_idx = DIGITAL_MAX_PORT_NUM - 1 ∧
    (USBD_HID_Digital_IO_SwitchPorts demo_sc2.1 demo_sc2.2).setups = [] :=
  C6_second_cycle_idempotent gpio_digital_pin_demo demo_live demo_live demo_buff demo_seq
    demo_sc1 demo_r1 demo_sc2 rfl rfl rfl

theorem C7_inactive_port_default_witness :
    ((USBD_HID_Digital_IO_Set_Changes gpio_digital_pin_demo demo_live demo_buff demo_live
        demo_seq).1.ports 2).gpio_settings.Mode = GPIO_MODE_INPUT ∧
    ((USBD_HID_Digital_IO_Set_Changes gpio_digital_pin_demo demo_live demo_buff demo_live
        demo_seq).1.ports 2).gpio_settings.Pull = GPIO_PULLDOWN ∧
    ((USBD_HID_Digital_IO_Set_Changes gpio_digital_pin_demo demo_live demo_buff demo_live
        demo_seq).1.ports 2).gpio_settings.Pin = defaultPinMask gpio_digital_pin_demo 2 ∧
    (∀ k : Fin DIGITAL_MAX_PIN_NUM,
      ((USBD_HID_Digital_IO_Set_Changes gpio_digital_pin_demo demo_live demo_buff demo_live
        demo_seq).1.ports 2).pins k = DIGITAL_PIN_LOW) ∧
    ((USBD_HID_Digital_IO_Set_Changes gpio_digital_pin_demo demo_live demo_buff demo_live
        demo_seq).1.ports 2).change_io = UNCHANGED ∧
    ((USBD_HID_Digital_IO_Set_Changes gpio_digital_pin_demo demo_live demo_buff demo_live
        demo_seq).1.ports 2).change_pin = UNCHANGED ∧
    stepPort gpio_digital_pin_demo (demo_live.ports 2) (demo_live.ports 2) 2 (demo_buff 2)
        demo_seq = (defaultPort gpio_digital_pin_demo 2, demo_seq) ∧
    pushKind (demo_live.ports 2) (demo_buff 2) = none ∧
    (2 : Fin DIGITAL_MAX_PORT_NUM).val ∉ (USBD_HID_Digital_IO_SwitchPorts
        (USBD_HID_Digital_IO_Set_Changes gpio_digital_pin_demo demo_live demo_buff demo_live
          { array := fun _ => 0, head_idx := 0, tail_idx := DIGITAL_MAX_PORT_NUM - 1 }).1
        (USBD_HID_Digital_IO_Set_Changes gpio_digital_pin_demo demo_live demo_buff demo_live
          { array := fun _ => 0, head_idx := 0, tail_idx := DIGITAL_MAX_PORT_NUM - 1 }).2).setups :=
  C7_inactive_port_default gpio_digital_pin_demo demo_live demo_live demo_buff demo_seq
    (fun _ => 0) 2 (by decide)

theorem C8_pull_decoder_total_witness :
    (demo_buff_c8 0 &&& 0x0C = 0 →
      ((USBD_HID_Digital_IO_Set_Changes gpio_digital_pin_demo demo_live demo_buff_c8
        demo_live demo_seq).1.ports 0).gpio_settings.Pull = GPIO_NOPULL) ∧
    (demo_buff_c8 0 &&& 0x0C = 4 →
      ((USBD_HID_Digital_IO_Set_Changes gpio_digital_pin_demo demo_live demo_buff_c8
        demo_live demo_seq).1.ports 0).gpio_settings.Pull = GPIO_PULLDOWN) ∧
    (demo_buff_c8 0 &&& 0x0C = 8 →
      ((USBD_HID_Digital_IO_Set_Changes gpio_digital_pin_demo demo_live demo_buff_c8
        demo_live demo_seq).1.ports 0).gpio_settings.Pull = GPIO_PULLUP) ∧
    (demo_buff_c8 0 &&& 0x0C = 12 →
      ((USBD_HID_Digital_IO_Set_Changes gpio_digital_pin_demo demo_live demo_buff_c8
        demo_live demo_seq).1.ports 0).gpio_settings.Pull = GPIO_NOPULL) :=
  C8_pull_decoder_total gpio_digital_pin_demo demo_live demo_live demo_buff_c8 demo_seq 0
    (by decide)

theorem C10_active_port_pin_mask_frame_witness :
    ((USBD_HID_Digital_IO_Set_Changes gpio_digital_pin_demo demo_live demo_buff demo_live
        demo_seq).1.ports 0).gpio_settings.Pin = (demo_live.ports 0).gpio_settings.Pin ∧
    ((USBD_HID_Digital_IO_SwitchPorts
        (USBD_HID_Digital_IO_Set_Changes gpio_digital_pin_demo demo_live demo_buff demo_live
          demo_seq).1
        (USBD_HID_Digital_IO_Set_Changes gpio_digital_pin_demo demo_live demo_buff demo_live
          demo_seq).2).live.ports 0).gpio_settings.Pin =
      (demo_live.ports 0).gpio_settings.Pin ∧
    (∀ idx : Nat,
      (USBD_HID_Digital_IO_Set_Changes gpio_digital_pin_demo demo_live demo_buff demo_live
        demo_seq).2.array idx = (0 : Fin DIGITAL_MAX_PORT_NUM).val →
      (USBD_HID_Digital_IO_GPIO_Setup
        (USBD_HID_Digital_IO_SwitchPorts
          (USBD_HID_Digital_IO_Set_Changes gpio_digital_pin_demo demo_live demo_buff demo_live
            demo_seq).1
          (USBD_HID_Digital_IO_Set_Changes gpio_digital_pin_demo demo_live demo_buff demo_live
            demo_seq).2).live
        (USBD_HID_Digital_IO_Set_Changes gpio_digital_pin_demo demo_live demo_buff demo_live
          demo_seq).2 idx).Pin = (demo_live.ports 0).gpio_settings.Pin) :=
  C10_active_port_pin_mask_frame gpio_digital_pin_demo demo_live demo_live demo_buff
    demo_seq 0 (by decide)
